import Mathlib

/-!
# bk3435 BLE Mesh design kit: battery client model and provisioning orchestrator

A shallow embedding of

* `sdk/mesh_inc/src/models/src/gen/genc/mm_genc_bat.c` (Generic Battery client model),
* `projects/ble_app_gma/app/app_mesh.c` (application side of the provisioning lifecycle),
* `projects/ble_app_gma/app/app.c` (application manager: bring-up and service registration),

followed by the properties established about them.

Conventions.  C functions become Lean functions of the same name.  Memory that a C function
writes is passed in and returned.  Calls into code outside the embedded file are recorded, in
program order, in a `trace`; the `MESH_*_PRINT_*` statements are recorded in a separate `log`,
each entry holding the source line of the statement and its numeric arguments.  Unsigned C
integers are natural numbers.
-/

namespace BleMesh

/-! ## Constants and build options -/

/-- Numeric constants that the sources take from SDK headers outside the embedded files.
Their values are not fixed here: every result below holds for all of them, under the
assumptions stated in the result. -/
structure mesh_defs where
  MESH_ERR_NO_ERROR : Nat
  MESH_ERR_MDL_INVALID_OPCODE : Nat
  MM_MSG_GEN_BAT_GET : Nat
  MM_MSG_GEN_BAT_STATUS : Nat
  M_TB_STATE_PROV_STATE_PROV : Nat
  M_CONF_GATT_PROXY_STATE_ENABLED : Nat
  MESH_UNPROV_ADV_TIME : Nat
  M_PROV_STARTED : Nat
  M_PROV_FAILED : Nat
  M_PROV_SUCCEED : Nat
  Flag_InGmaState : Nat
  StartGmaOtaAdv_Cnt : Nat
  InGmaOtaCnt : Nat
  M_TB_KEY_DEVICE : Nat
  M_TB_KEY_NETWORK : Nat
  M_TB_KEY_APPLICATION : Nat
  M_TTL_DEFAULT : Nat
  FLASH_LIGHT_PARAM_TYPE_POWER_ON_COUNT : Nat
  MM_ID_GENC_BAT : Nat
  M_MDL_CONFIG_PUBLI_AUTH_BIT : Nat
  MM_TB_STATE_ROLE_CLI : Nat
  MM_TB_STATE_CFG_CB_BIT : Nat
  sizeof_mm_genc_bat_env_t : Nat
  M_PROV_STATIC_OOB_AVAILABLE : Nat
  M_PROV_PUB_KEY_OOB_USED : Nat

/-- Preprocessor switches tested by `#if` in `app_mesh.c`; they are set outside the
embedded files. -/
structure build_cfg where
  BLE_MESH_GATT_PROV : Bool
  BLE_MESH_GATT_PROXY : Bool
  UNPROV_TIMEOUT_ADV : Bool
  TEST_MESH_OTA : Bool

/-- Preprocessor switches that select the product variant: the Ali/GMA features and the
device whose built-in authentication value is compiled in (`app_mesh.c:531-574`).  They are
set outside the embedded files. -/
structure product_cfg where
  ALI_MESH : Bool
  GMA_SUPPORT : Bool
  MAC78da07bcd71b : Bool
  MAC78da07bcd71c : Bool
  MAC78da07bcd71d : Bool
  MACf8a76324a49e : Bool
  MACf8a76324a49f : Bool

/-- One `MESH_*_PRINT_*` statement that was executed: its source line and its numeric
arguments. -/
structure log_entry where
  line : Nat
  args : List Nat
deriving DecidableEq, Repr

/-! ## Generic Battery client model (`mm_genc_bat.c`) -/

/-- Routing environment of a buffer (`mm_route_buf_env_t`), with the fields the battery
client reads or writes.  `u_addr` is the C union of `src` and `dst`. -/
structure mm_route_buf_env_t where
  app_key_lid : Nat
  u_addr : Nat
  info : Nat
  mdl_lid : Nat
  opcode : Nat
deriving DecidableEq, Repr

/-- Message buffer (`mesh_tb_buf_t`).  `mem i` is the byte stored `i` positions after
`MESH_TB_BUF_DATA(p_buf)`; the payload is the first `data_len` of these positions, the
positions from `data_len` on are whatever memory follows the payload. -/
structure mesh_tb_buf_t where
  data_len : Nat
  mem : Nat → Nat
  env : mm_route_buf_env_t

/-- Basic model environment (`mm_tb_state_mdl_env_t`), with the field the battery client
uses. -/
structure mm_tb_state_mdl_env_t where
  mdl_lid : Nat
deriving DecidableEq, Repr

/-- Calls the battery client makes into the rest of the SDK. -/
inductive mm_call where
  | mm_api_send_cli_bat_ind (src bat_lvl time_discharge time_charge flags : Nat)
  | mm_route_buf_alloc (data_len : Nat)
  | mm_route_send (p_buf : mesh_tb_buf_t)
  | m_api_register_model (model_id elmt_idx config : Nat)
  | mm_tb_state_register (elmt_idx model_id mdl_lid role env_size : Nat)
  | mm_tb_state_get_env (mdl_lid : Nat)
  | mm_api_send_register_ind (model_id elmt_idx mdl_lid : Nat)

/-- Recognises an indication sent to the application. -/
def mm_call.is_ind : mm_call → Bool
  | .mm_api_send_cli_bat_ind _ _ _ _ _ => true
  | _ => false

/-- Recognises an allocation request. -/
def mm_call.is_alloc : mm_call → Bool
  | .mm_route_buf_alloc _ => true
  | _ => false

/-- Recognises a registration with the Model State Manager. -/
def mm_call.is_state_register : mm_call → Bool
  | .mm_tb_state_register _ _ _ _ _ => true
  | _ => false

/-- Recognises a registration indication sent to the application. -/
def mm_call.is_register_ind : mm_call → Bool
  | .mm_api_send_register_ind _ _ _ => true
  | _ => false

/-- Recognises a buffer handed to the routing layer. -/
def mm_call.is_send : mm_call → Bool
  | .mm_route_send _ => true
  | _ => false

/-- Modelled from the spec: the header offsets of the Generic Battery Status fields, which
the spec gives as "level byte at offset 0, two 24-bit fields at offsets 1 and 4, flags byte
at offset 7". -/
def MM_GEN_BAT_STATUS_LEVEL_POS : Nat := 0

/-- Modelled from the spec: offset of the first 24-bit field (time to discharge). -/
def MM_GEN_BAT_STATUS_TIME_DISCHARGE_POS : Nat := 1

/-- Modelled from the spec: offset of the second 24-bit field (time to charge). -/
def MM_GEN_BAT_STATUS_TIME_CHARGE_POS : Nat := 4

/-- Modelled from the spec: offset of the flags byte. -/
def MM_GEN_BAT_STATUS_FLAGS_POS : Nat := 7

/-- Dereference of a `uint8_t *`: the byte at position `p`. -/
def read8 (mem : Nat → Nat) (p : Nat) : Nat := mem p % 256

/-- Modelled from the spec: `co_read24p` (a header helper outside the embedded files) reads
a 24-bit value from three consecutive bytes, least significant first; the spec's example
maps the bytes `01 02 03` to `0x030201`. -/
def co_read24p (mem : Nat → Nat) (p : Nat) : Nat :=
  read8 mem p + 256 * read8 mem (p + 1) + 65536 * read8 mem (p + 2)

/-- Positions dereferenced by `co_read24p` at `p`. -/
def co_read24p_reads (p : Nat) : List Nat := [p, p + 1, p + 2]

/-- What a callback of the battery client leaves behind: the model environment, the
positions of the received buffer it dereferenced, its calls and its log. -/
structure mm_result where
  env : mm_tb_state_mdl_env_t
  reads : List Nat
  trace : List mm_call
  log : List log_entry

/-- Embedding of `mm_genc_bat_cb_rx` (mm_genc_bat.c:56-77). -/
def mm_genc_bat_cb_rx (d : mesh_defs) (p_env : mm_tb_state_mdl_env_t) (p_buf : mesh_tb_buf_t)
    (p_route_env : mm_route_buf_env_t) : mm_result :=
  if p_route_env.opcode = d.MM_MSG_GEN_BAT_STATUS then
    let p_data := p_buf.mem
    let bat_lvl := read8 p_data MM_GEN_BAT_STATUS_LEVEL_POS
    let time_discharge := co_read24p p_data MM_GEN_BAT_STATUS_TIME_DISCHARGE_POS
    let time_charge := co_read24p p_data MM_GEN_BAT_STATUS_TIME_CHARGE_POS
    let flags := read8 p_data MM_GEN_BAT_STATUS_FLAGS_POS
    { env := p_env
      reads := [MM_GEN_BAT_STATUS_LEVEL_POS]
        ++ co_read24p_reads MM_GEN_BAT_STATUS_TIME_DISCHARGE_POS
        ++ co_read24p_reads MM_GEN_BAT_STATUS_TIME_CHARGE_POS
        ++ [MM_GEN_BAT_STATUS_FLAGS_POS]
      trace := [.mm_api_send_cli_bat_ind p_route_env.u_addr bat_lvl time_discharge
        time_charge flags]
      log := [] }
  else
    { env := p_env, reads := [], trace := [], log := [⟨75, [p_route_env.opcode]⟩] }

/-- Embedding of `mm_genc_bat_cb_opcode_check` (mm_genc_bat.c:90-105): the returned status
and the log. -/
def mm_genc_bat_cb_opcode_check (d : mesh_defs) (_p_env : mm_tb_state_mdl_env_t)
    (opcode : Nat) : Nat × List log_entry :=
  if opcode = d.MM_MSG_GEN_BAT_STATUS then
    (d.MESH_ERR_NO_ERROR, [])
  else
    (d.MESH_ERR_MDL_INVALID_OPCODE, [⟨100, [opcode]⟩])

/-- Embedding of `mm_genc_bat_cb_get` (mm_genc_bat.c:117-145).  `alloc n` is the answer of
the routing layer to `mm_route_buf_alloc(&p_buf_get, n)`: a status and the buffer written
to `p_buf_get`.  The result is the returned status and what the call leaves behind. -/
def mm_genc_bat_cb_get (d : mesh_defs) (alloc : Nat → Nat × mesh_tb_buf_t)
    (p_env : mm_tb_state_mdl_env_t) (dst _get_info : Nat) : Nat × mm_result :=
  let status := (alloc 0).1
  let p_buf_get := (alloc 0).2
  if status = d.MESH_ERR_NO_ERROR then
    let p_buf_env : mm_route_buf_env_t :=
      { p_buf_get.env with
        app_key_lid := 6
        u_addr := dst
        info := 0
        mdl_lid := p_env.mdl_lid
        opcode := d.MM_MSG_GEN_BAT_GET }
    (status,
      { env := p_env, reads := []
        trace := [.mm_route_buf_alloc 0, .mm_route_send { p_buf_get with env := p_buf_env }]
        log := [] })
  else
    (status,
      { env := p_env, reads := [], trace := [.mm_route_buf_alloc 0], log := [⟨141, []⟩] })

/-- The internal callbacks of the battery client. -/
inductive mm_cb where
  | mm_genc_bat_cb_rx
  | mm_genc_bat_cb_opcode_check
  | mm_genc_bat_cb_get
deriving DecidableEq, Repr

/-- The callback pointers of the battery client's environment (`mm_genc_bat_env_t`):
`env.cb.cb_rx`, `env.cb.cb_opcode_check` and `env.cb.u.p_cb_cli->cb_get`. -/
structure mm_genc_bat_env_t where
  cb_rx : Option mm_cb
  cb_opcode_check : Option mm_cb
  cb_get : Option mm_cb
deriving DecidableEq, Repr

/-- What `mm_genc_bat_register` leaves behind: the returned status, the environment of
the model, the calls and the log. -/
structure mm_register_result where
  status : Nat
  env : mm_genc_bat_env_t
  trace : List mm_call
  log : List log_entry

/-- Embedding of `mm_genc_bat_register` (mm_genc_bat.c:152-193).  `reg_model` is the
answer of `m_api_register_model`: its status and the local index written to `mdl_lid`;
`state_register` is the status of `mm_tb_state_register`; `p_env_bat` is the environment
that `mm_tb_state_get_env(mdl_lid)` points to. -/
def mm_genc_bat_register (d : mesh_defs) (reg_model : Nat × Nat) (state_register : Nat)
    (p_env_bat : mm_genc_bat_env_t) : mm_register_result :=
  let mdl_lid := reg_model.2
  let status := reg_model.1
  let tr : List mm_call :=
    [.m_api_register_model d.MM_ID_GENC_BAT 0 d.M_MDL_CONFIG_PUBLI_AUTH_BIT]
  if status = d.MESH_ERR_NO_ERROR then
    let status := state_register
    let tr := tr ++ [.mm_tb_state_register 0 d.MM_ID_GENC_BAT mdl_lid
      (d.MM_TB_STATE_ROLE_CLI ||| d.MM_TB_STATE_CFG_CB_BIT) d.sizeof_mm_genc_bat_env_t]
    if status = d.MESH_ERR_NO_ERROR then
      let tr := tr ++ [.mm_tb_state_get_env mdl_lid]
      let p_env_bat := { p_env_bat with cb_rx := some .mm_genc_bat_cb_rx }
      let p_env_bat := { p_env_bat with cb_opcode_check := some .mm_genc_bat_cb_opcode_check }
      let p_env_bat := { p_env_bat with cb_get := some .mm_genc_bat_cb_get }
      let tr := tr ++ [.mm_api_send_register_ind d.MM_ID_GENC_BAT 0 mdl_lid]
      { status := status, env := p_env_bat, trace := tr, log := [] }
    else
      { status := status, env := p_env_bat, trace := tr, log := [⟨184, [status]⟩] }
  else
    { status := status, env := p_env_bat, trace := tr, log := [⟨189, [status]⟩] }

/-- A received buffer whose payload is the byte list `bs` and which is followed in memory
by the bytes `rest`. -/
def buf_of_payload (bs : List Nat) (rest : Nat → Nat) (env : mm_route_buf_env_t) :
    mesh_tb_buf_t :=
  { data_len := bs.length
    mem := fun i => if i < bs.length then bs.getD i 0 else rest i
    env := env }

/-! ## Provisioning orchestrator (`app_mesh.c`) -/

/-- Callbacks that `app_mesh.c` stores in `app_mesh_env.timer_upd.cb`. -/
inductive timer_cb where
  | app_unprov_adv_cb_timerout
deriving DecidableEq, Repr

/-- Parameters of `MESH_API_PROV_PARAM_CFM` (`m_api_prov_param_cfm_t`), with the fields
`app_get_prov_param` writes.  `dev_uuid` is the array of sixteen bytes that the function
indexes from 0 to 15. -/
structure m_api_prov_param_cfm_t where
  dev_uuid : List Nat
  uri_hash : Nat
  oob_info : Nat
  static_oob : Nat
  pub_key_oob : Nat
  out_oob_size : Nat
  in_oob_size : Nat
  out_oob_action : Nat
  in_oob_action : Nat
  nb_elt : Nat
  info : Nat
deriving DecidableEq, Repr

/-- Calls that the embedded part of `app_mesh.c` makes into code outside the file, with
their numeric arguments.  `rwip_prevent_sleep_set` and `rwip_prevent_sleep_clear` are
always called with `BK_MESH_ACTIVE`, the timer calls always with `&app_mesh_env.timer_upd`.
`ke_msg_send_prov_param_cfm cfm` stands for sending the `MESH_API_PROV_PARAM_CFM` message
with the contents `cfm`.  Calls of the pure getters `m_tb_state_get_prov_state` and
`gma_ota_is_ongoing` are not recorded.  The second argument of `light_state_nv_store` is
not an argument of the C call: it is the value the global `quick_onoff_count` has when the
call is made.  `ke_msg_send_prov_auth_data_cfm accept auth_size auth_data` stands for
sending the `MESH_API_PROV_AUTH_DATA_CFM` message with these contents. -/
inductive app_call where
  | m_bcn_stop_tx_unprov_bcn
  | m_prov_bearer_gatt_stop
  | m_prov_bearer_scan_stop
  | led_deinit
  | rwip_prevent_sleep_set
  | rwip_prevent_sleep_clear
  | ke_msg_send_prov_param_cfm (cfm : m_api_prov_param_cfm_t)
  | m_link_open_ack_dis
  | mesh_tb_timer_set (delay : Nat)
  | mesh_tb_timer_clear
  | app_mesh_enable
  | m_tb_state_set_gatt_proxy_state (state : Nat)
  | m_api_proxy_ctrl (enable : Nat)
  | m_tb_store_nvs_after_stop_scan
  | m_tb_store_config (delay : Nat)
  | m_tb_state_set_relay_state (relay : Nat) (on_off : Nat)
  | m_tb_key_net_next
  | light_prov_start
  | light_prov_complete
  | m_tb_key_app_find
  | m_tb_key_model_bind (app_key_lid : Nat) (mdl_lid : Nat)
  | m_tb_mio_bind (mdl_lid : Nat)
  | m_tb_mio_add_subscription (m_lid : Nat) (addr : Nat)
  | m_tb_mio_set_publi_param (m_lid addr app_key_lid ttl period retx_params friend_cred : Nat)
  | CloseMeshAdv_OpenGmaOtaAdv
  | light_unBind_complete
  | light_state_nv_store (type : Nat) (quick_onoff_count : Nat)
  | wdt_reset (val : Nat)
  | user_data_contains_ali_data
  | user_data_read_ali_product_id
  | user_data_read_ali_mac
  | user_data_read_ali_secret_key
  | flash_read_data
  | ke_msg_send_prov_auth_data_cfm (accept : Nat) (auth_size : Nat) (auth_data : List Nat)
deriving DecidableEq, Repr

/-- Recognises a persisted-configuration write. -/
def app_call.is_store_config : app_call → Bool
  | .m_tb_store_config _ => true
  | _ => false

/-- Recognises a call that programs or cancels the advertising timer. -/
def app_call.is_timer : app_call → Bool
  | .mesh_tb_timer_set _ => true
  | .mesh_tb_timer_clear => true
  | _ => false

/-- Recognises a call that sets the stay-awake hold. -/
def app_call.is_sleep_set : app_call → Bool
  | .rwip_prevent_sleep_set => true
  | _ => false

/-- Recognises a call that clears the stay-awake hold. -/
def app_call.is_sleep_clear : app_call → Bool
  | .rwip_prevent_sleep_clear => true
  | _ => false

/-- Recognises an attempt to bind the application key to a model. -/
def app_call.is_key_model_bind : app_call → Bool
  | .m_tb_key_model_bind _ _ => true
  | _ => false

/-- Recognises a model-side bind. -/
def app_call.is_mio_bind : app_call → Bool
  | .m_tb_mio_bind _ => true
  | _ => false

/-- Recognises the post-provisioning hook. -/
def app_call.is_prov_complete : app_call → Bool
  | .light_prov_complete => true
  | _ => false

/-- Recognises a call that switches the advertising content to the maintenance one. -/
def app_call.is_gma_adv : app_call → Bool
  | .CloseMeshAdv_OpenGmaOtaAdv => true
  | _ => false

/-- Recognises a confirmation of authentication data. -/
def app_call.is_auth_cfm : app_call → Bool
  | .ke_msg_send_prov_auth_data_cfm _ _ _ => true
  | _ => false

/-- Recognises a confirmation of provisioning parameters. -/
def app_call.is_prov_param_cfm : app_call → Bool
  | .ke_msg_send_prov_param_cfm _ => true
  | _ => false

/-- Recognises a call that changes or starts the GATT proxy service. -/
def app_call.is_proxy : app_call → Bool
  | .m_tb_state_set_gatt_proxy_state _ => true
  | .m_api_proxy_ctrl _ => true
  | _ => false

/-- Memory and surroundings of `app_mesh.c`.
* `timer_upd_cb`, `timer_upd_period`: the fields `cb` and `period` of
  `app_mesh_env.timer_upd`;
* `timer_armed`: the delay after which the timer layer will fire `timer_upd`, if it is
  programmed;
* `stay_awake`: the `BK_MESH_ACTIVE` stay-awake hold;
* `prov_state`: what `m_tb_state_get_prov_state()` returns;
* `gatt_proxy_state`: the GATT proxy state kept by the stack;
* `net_key_status`: the status `m_tb_key_net_next(&net_key_lid, NULL)` returns;
* `gma_ota_ongoing`: what `gma_ota_is_ongoing()` returns;
* `flag_gma`, `m_adv_interval`, `m_bcn_default_unprov_bcn_intv_ms`: the C globals
  `flag_gma`, `m_stack_param.m_adv_interval` and
  `m_stack_param.m_bcn_default_unprov_bcn_intv_ms`;
* `inGmaOtaTime`, `quick_onoff_count`: the C globals of these names;
* `config_num`: the `static uint16_t config_num` of
  `app_mesh_msg_model_app_bind_handler`. -/
structure app_world where
  timer_upd_cb : Option timer_cb
  timer_upd_period : Nat
  timer_armed : Option Nat
  stay_awake : Bool
  prov_state : Nat
  gatt_proxy_state : Nat
  net_key_status : Nat
  gma_ota_ongoing : Bool
  flag_gma : Nat
  m_adv_interval : Nat
  m_bcn_default_unprov_bcn_intv_ms : Nat
  inGmaOtaTime : Nat
  quick_onoff_count : Nat
  config_num : Nat
  trace : List app_call
  log : List log_entry
deriving DecidableEq, Repr

/-- Return values of a kernel message handler (`enum ke_msg_status_tag`). -/
inductive ke_msg_status where
  | KE_MSG_CONSUMED
  | KE_MSG_NO_FREE
  | KE_MSG_SAVED
deriving DecidableEq, Repr

/-- Records a call into outside code that changes nothing of `app_world`. -/
def call (c : app_call) (w : app_world) : app_world :=
  { w with trace := w.trace ++ [c] }

/-- Records a `MESH_APP_PRINT_*` statement. -/
def print (line : Nat) (args : List Nat) (w : app_world) : app_world :=
  { w with log := w.log ++ [⟨line, args⟩] }

/-- Modelled from the spec: `mesh_tb_timer_set` (timer layer, outside the embedded files)
is the spec's timer `arm(duration, callback)`: the timer is programmed to fire after
`delay`. -/
def mesh_tb_timer_set (delay : Nat) (w : app_world) : app_world :=
  { w with timer_armed := some delay, trace := w.trace ++ [.mesh_tb_timer_set delay] }

/-- Modelled from the spec: `mesh_tb_timer_clear` is the spec's timer `cancel()`: the timer
is no longer programmed, whether or not it was. -/
def mesh_tb_timer_clear (w : app_world) : app_world :=
  { w with timer_armed := none, trace := w.trace ++ [.mesh_tb_timer_clear] }

/-- Modelled from the spec: `rwip_prevent_sleep_set(BK_MESH_ACTIVE)` sets the stay-awake
hold, which the spec describes as "a simple reference-style flag (set/clear), not a
counting semaphore". -/
def rwip_prevent_sleep_set (w : app_world) : app_world :=
  { w with stay_awake := true, trace := w.trace ++ [.rwip_prevent_sleep_set] }

/-- Modelled from the spec: `rwip_prevent_sleep_clear(BK_MESH_ACTIVE)` clears the
stay-awake hold. -/
def rwip_prevent_sleep_clear (w : app_world) : app_world :=
  { w with stay_awake := false, trace := w.trace ++ [.rwip_prevent_sleep_clear] }

/-- Modelled from the spec: `m_tb_state_set_gatt_proxy_state` (stack, outside the embedded
files) stores the new GATT proxy state. -/
def m_tb_state_set_gatt_proxy_state (state : Nat) (w : app_world) : app_world :=
  { w with
    gatt_proxy_state := state
    trace := w.trace ++ [.m_tb_state_set_gatt_proxy_state state] }

/-- Writing the first 16 bytes of `src` over the first 16 bytes of `dst`, as
`memcpy(dst, src, 16)` and the sixteen assignments `dst[0] = ..; .. dst[15] = ..` do. -/
def write16 (dst src : List Nat) : List Nat :=
  src.take 16 ++ dst.drop 16

/-- The assignments `a[start] = b0; a[start + 1] = b1; ..` for the bytes `b0, b1, ..`. -/
def set_bytes : List Nat → Nat → List Nat → List Nat
  | a, _, [] => a
  | a, start, b :: bs => set_bytes (a.set start b) (start + 1) bs

/-- The fields of the local `ali_uuid_t dev_uuid` that `app_get_prov_param` assigns; its
`rfu` bytes are set to zero. -/
structure ali_uuid_t where
  cid : Nat
  pid_adv_ver : Nat
  pid_sec : Nat
  pid_ota : Nat
  pid_bt_ver : Nat
  product_id : Nat
  mac_addr : List Nat
  feature_flag : Nat
deriving DecidableEq, Repr

/-- What `app_get_prov_param` and its callers find outside `app_mesh.c`.
* `alloc_cfm`: the contents of the message just allocated by `KE_MSG_ALLOC`;
* `contains_ali_data`: what `user_data_contains_ali_data()` returns;
* `ali_product_id`: what `user_data_read_ali_product_id()` returns;
* `read_ali_mac`: what `user_data_read_ali_mac(bt_addr, 1)` returns, and the six bytes
  that `bt_addr` holds after the call;
* `ali_uuid_image`: the sixteen bytes that an `ali_uuid_t` object with the given fields
  and zeroed `rfu` occupies in memory; the layout is given by the header that declares
  the type. -/
structure prov_param_env where
  alloc_cfm : m_api_prov_param_cfm_t
  contains_ali_data : Bool
  ali_product_id : Nat
  read_ali_mac : Bool × List Nat
  ali_uuid_image : ali_uuid_t → List Nat

/-- The unconditional and the `#if MAC... #elif ...` assignments to `cfm` at the start of
`app_get_prov_param` (app_mesh.c:608-655). -/
def builtin_prov_param (p : product_cfg) (cfm : m_api_prov_param_cfm_t) :
    m_api_prov_param_cfm_t :=
  let cfm :=
    { cfm with dev_uuid := set_bytes cfm.dev_uuid 0 [0xa8, 0x01, 0x71, 0x33, 0x02, 0x00, 0x00] }
  if p.MAC78da07bcd71b then
    { cfm with
      dev_uuid := set_bytes cfm.dev_uuid 7
        [0x1b, 0xd7, 0xbc, 0x07, 0xda, 0x78, 0x00, 0x00, 0x00]
      uri_hash := 0x0
      oob_info := 0x0000 }
  else if p.MAC78da07bcd71c then
    { cfm with
      dev_uuid := set_bytes cfm.dev_uuid 7
        [0x1c, 0xd7, 0xbc, 0x07, 0xda, 0x78, 0x00, 0x00, 0x00]
      uri_hash := 0x0
      oob_info := 0x0000 }
  else if p.MAC78da07bcd71d then
    { cfm with
      dev_uuid := set_bytes cfm.dev_uuid 7
        [0x1d, 0xd7, 0xbc, 0x07, 0xda, 0x78, 0x00, 0x00, 0x00]
      uri_hash := 0x0
      oob_info := 0x0000 }
  else if p.MACf8a76324a49e then
    { cfm with
      dev_uuid := set_bytes (set_bytes cfm.dev_uuid 3 [0x38, 0x18, 0x00, 0x00]) 7
        [0x9e, 0xa4, 0x24, 0x63, 0xa7, 0xf8, 0x00, 0x00, 0x00]
      uri_hash := 0x0
      oob_info := 0x0000 }
  else if p.MACf8a76324a49f then
    { cfm with
      dev_uuid := set_bytes (set_bytes cfm.dev_uuid 3 [0x38, 0x18, 0x00, 0x00]) 7
        [0x9f, 0xa4, 0x24, 0x63, 0xa7, 0xf8, 0x00, 0x00, 0x00]
      uri_hash := 0x0
      oob_info := 0x0000 }
  else cfm

/-- The `for` loop that prints the sixteen bytes of `cfm->dev_uuid`
(app_mesh.c:694-697). -/
def print_dev_uuid (dev_uuid : List Nat) (w : app_world) : app_world :=
  (List.range 16).foldl (fun w i => print 696 [i, dev_uuid.getD i 0] w) w

/-- Embedding of `app_get_prov_param` (app_mesh.c:606-706): the message `cfm` after the
call, and the state.  In the `ALI_MESH` block `dev_uuid.mac_addr` is written twice from
`bt_addr`, the second time whether or not the read succeeded, so it ends as the bytes
`bt_addr` holds after `user_data_read_ali_mac`. -/
def app_get_prov_param (d : mesh_defs) (p : product_cfg) (e : prov_param_env)
    (cfm : m_api_prov_param_cfm_t) (adv_type : Nat) (w : app_world) :
    m_api_prov_param_cfm_t × app_world :=
  let cfm := builtin_prov_param p cfm
  let r : m_api_prov_param_cfm_t × app_world :=
    if p.ALI_MESH then
      let w := call .user_data_contains_ali_data w
      if e.contains_ali_data then
        let w := call .user_data_read_ali_product_id w
        let product_id := e.ali_product_id
        let w := call .user_data_read_ali_mac w
        let bt_addr := e.read_ali_mac.2
        let dev_uuid : ali_uuid_t :=
          { cid := 0x01A8
            pid_adv_ver := 1
            pid_sec := 1
            pid_ota := 1
            pid_bt_ver := 1
            product_id := product_id
            mac_addr := bt_addr
            feature_flag := if adv_type = 0x1 then 0x01 else 0x00 }
        ({ cfm with
           dev_uuid := write16 cfm.dev_uuid (e.ali_uuid_image dev_uuid)
           uri_hash := 0x0
           oob_info := 0x0000 }, w)
      else (cfm, w)
    else (cfm, w)
  let w := print_dev_uuid r.1.dev_uuid r.2
  let cfm :=
    { r.1 with
      static_oob := d.M_PROV_STATIC_OOB_AVAILABLE
      pub_key_oob := d.M_PROV_PUB_KEY_OOB_USED
      out_oob_size := 0
      in_oob_size := 0
      out_oob_action := 0
      in_oob_action := 0
      nb_elt := 3
      info := 0 }
  (cfm, w)

/-- Embedding of `app_unprov_adv_cb_timerout` (app_mesh.c:204-226).  The message of the
`UNPROV_TIMEOUT_ADV` block is the one `KE_MSG_ALLOC` returns, `e.alloc_cfm`, filled by
`app_get_prov_param(cfm, 1)`; the allocation is not recorded as a call of its own, the
`ke_msg_send` of the filled message is. -/
def app_unprov_adv_cb_timerout (d : mesh_defs) (cfg : build_cfg) (p : product_cfg)
    (e : prov_param_env) (w : app_world) : app_world :=
  let w := print 206 [] w
  let w := call .m_bcn_stop_tx_unprov_bcn w
  let w :=
    if cfg.BLE_MESH_GATT_PROV then
      call .m_prov_bearer_scan_stop (call .m_prov_bearer_gatt_stop w)
    else w
  let w := call .led_deinit w
  let w := rwip_prevent_sleep_clear w
  if cfg.UNPROV_TIMEOUT_ADV then
    let w := rwip_prevent_sleep_set w
    let r := app_get_prov_param d p e e.alloc_cfm 1 w
    let w := call (.ke_msg_send_prov_param_cfm r.1) r.2
    let w := call .m_link_open_ack_dis w
    { w with m_adv_interval := 200, m_bcn_default_unprov_bcn_intv_ms := 60000 }
  else w

/-- Embedding of `app_unprov_adv_timeout_set` (app_mesh.c:228-242). -/
def app_unprov_adv_timeout_set (timer : Nat) (w : app_world) : app_world :=
  let w := print 230 [timer] w
  if timer ≠ 0 then
    let w := { w with timer_upd_cb := some .app_unprov_adv_cb_timerout }
    let w := { w with timer_upd_period := timer }
    let w := mesh_tb_timer_set timer w
    rwip_prevent_sleep_set w
  else
    mesh_tb_timer_clear w

/-- Runs a stored timer callback. -/
def run_timer_cb (d : mesh_defs) (cfg : build_cfg) (p : product_cfg) (e : prov_param_env) :
    timer_cb → app_world → app_world
  | .app_unprov_adv_cb_timerout => app_unprov_adv_cb_timerout d cfg p e

/-- Modelled from the spec: expiry of `app_mesh_env.timer_upd` in the timer layer.  "Timers
are cooperative callbacks delivered through the same single dispatch context": a programmed
timer stops being programmed and its stored callback runs; an unprogrammed timer does
nothing. -/
def mesh_tb_timer_expire (d : mesh_defs) (cfg : build_cfg) (p : product_cfg)
    (e : prov_param_env) (w : app_world) : app_world :=
  match w.timer_armed, w.timer_upd_cb with
  | some _, some cb => run_timer_cb d cfg p e cb { w with timer_armed := none }
  | _, _ => w

/-- Parameters of `MESH_API_CMP_EVT` (`struct m_api_cmp_evt`). -/
structure m_api_cmp_evt where
  cmd_code : Nat
  status : Nat
deriving DecidableEq, Repr

/-- Command code of the storage-load command; the value is the one the source notes at
its `case` label (app_mesh.c:446). -/
def M_API_STORAGE_LOAD : Nat := 0x50

/-- Command code of the enable command (app_mesh.c:451). -/
def M_API_ENABLE : Nat := 0x0

/-- Command code of the disable command (app_mesh.c:472). -/
def M_API_DISABLE : Nat := 0x1

/-- Numeric value of a C truth value. -/
def b2n (b : Bool) : Nat := if b then 1 else 0

/-- Embedding of `app_mesh_api_cmp_handler` (app_mesh.c:437-488).  The argument of
`app_unprov_adv_timeout_set` is the value of `MESH_UNPROV_ADV_TIME` converted to the
`uint32_t` parameter `timer`. -/
def app_mesh_api_cmp_handler (d : mesh_defs) (cfg : build_cfg) (param : m_api_cmp_evt)
    (w : app_world) : ke_msg_status × app_world :=
  let w := print 442 [param.cmd_code, param.status] w
  let w :=
    if param.cmd_code = M_API_STORAGE_LOAD then
      call .app_mesh_enable w
    else if param.cmd_code = M_API_ENABLE then
      if param.cmd_code = M_API_ENABLE ∧ param.status = d.MESH_ERR_NO_ERROR then
        let w := print 455 [b2n (decide (w.prov_state = d.M_TB_STATE_PROV_STATE_PROV))] w
        if w.prov_state = d.M_TB_STATE_PROV_STATE_PROV then
          if !cfg.TEST_MESH_OTA && cfg.BLE_MESH_GATT_PROXY then
            m_tb_state_set_gatt_proxy_state d.M_CONF_GATT_PROXY_STATE_ENABLED w
          else w
        else
          app_unprov_adv_timeout_set (d.MESH_UNPROV_ADV_TIME % 2 ^ 32) w
      else w
    else if param.cmd_code = M_API_DISABLE then
      let idle := !w.gma_ota_ongoing
      let out_of_gma := decide (w.flag_gma &&& d.Flag_InGmaState = 0)
      let w := print 475 [b2n idle, b2n out_of_gma] w
      let w :=
        if idle && out_of_gma then
          call .app_mesh_enable (call .m_tb_store_nvs_after_stop_scan w)
        else w
      print 481 [param.status] w
    else w
  (.KE_MSG_CONSUMED, w)

/-- Parameters of `MESH_API_PROV_STATE_IND` (`struct m_api_prov_state_ind`). -/
structure m_api_prov_state_ind where
  state : Nat
  status : Nat
deriving DecidableEq, Repr

/-- Embedding of `app_mesh_api_prov_state_ind_handler` (app_mesh.c:745-789). -/
def app_mesh_api_prov_state_ind_handler (d : mesh_defs) (cfg : build_cfg)
    (param : m_api_prov_state_ind) (w : app_world) : ke_msg_status × app_world :=
  let w := print 750 [] w
  let w := print 752 [param.state, param.status] w
  let w :=
    if param.state = d.M_PROV_STARTED then
      call .light_prov_start w
    else if param.state = d.M_PROV_FAILED then
      print 761 [] w
    else if param.state = d.M_PROV_SUCCEED then
      let w := call (.m_tb_store_config 5) w
      let w := call .light_prov_complete w
      let w := call (.m_tb_state_set_relay_state 1 1) w
      let w := app_unprov_adv_timeout_set 0 w
      let w := print 773 [] w
      if !cfg.TEST_MESH_OTA then
        let w := call .m_tb_key_net_next w
        if w.net_key_status = d.MESH_ERR_NO_ERROR then
          if cfg.BLE_MESH_GATT_PROXY then
            let w := m_tb_state_set_gatt_proxy_state d.M_CONF_GATT_PROXY_STATE_ENABLED w
            call (.m_api_proxy_ctrl 2) w
          else w
        else w
      else w
    else w
  (.KE_MSG_CONSUMED, w)

/-! ### Key binding -/

/-- What the stack tables answer to the lookups of `app_mesh.c`, and the model local
indexes kept in the application's globals.
* `app_key_find`: status of `m_tb_key_app_find(0, &app_key_lid)` and the value
  `app_key_lid` holds after the call;
* `nb_model`: what `m_tb_mio_get_nb_model()` returns, a count of model local indexes;
* `key_model_bind app_key_lid mdl_lid`: status of `m_tb_key_model_bind`;
* `add_subscription m_lid addr`: status of `m_tb_mio_add_subscription`;
* `set_publi_param m_lid addr app_key_lid`: status of `m_tb_mio_set_publi_param`;
* `g_ln_mdl_lid`, `g_ctl_mdl_lid`, `g_vdr_lid`: the C globals of these names. -/
structure stack_view where
  app_key_find : Nat × Nat
  nb_model : Nat
  key_model_bind : Nat → Nat → Nat
  add_subscription : Nat → Nat → Nat
  set_publi_param : Nat → Nat → Nat → Nat
  g_ln_mdl_lid : Nat
  g_ctl_mdl_lid : Nat
  g_vdr_lid : Nat

/-- The `for` loop of `user_models_bind_app_key` (app_mesh.c:144-152), started at index
`i`.  The first argument bounds the number of iterations; `user_models_bind_app_key`
passes a bound the loop never reaches. -/
def user_models_bind_loop (d : mesh_defs) (sv : stack_view) (app_key_lid : Nat) :
    Nat → Nat → app_world → app_world
  | 0, _, w => w
  | fuel + 1, i, w =>
    if i < sv.nb_model then
      let status := sv.key_model_bind app_key_lid i
      let w := call (.m_tb_key_model_bind app_key_lid i) w
      let w := print 147 [i, status] w
      let w := if status = d.MESH_ERR_NO_ERROR then call (.m_tb_mio_bind i) w else w
      user_models_bind_loop d sv app_key_lid fuel (i + 1) w
    else w

/-- Embedding of `user_models_bind_app_key` (app_mesh.c:133-154). -/
def user_models_bind_app_key (d : mesh_defs) (sv : stack_view) (w : app_world) :
    app_world :=
  let status := sv.app_key_find.1
  let app_key_lid := sv.app_key_find.2
  let w := call .m_tb_key_app_find w
  let w := print 140 [app_key_lid, status] w
  if status = d.MESH_ERR_NO_ERROR then
    user_models_bind_loop d sv app_key_lid sv.nb_model 2 w
  else w

/-- Embedding of `user_models_subs_group_addr` (app_mesh.c:176-182): the returned status
and the state. -/
def user_models_subs_group_addr (sv : stack_view) (m_lid addr : Nat) (w : app_world) :
    Nat × app_world :=
  (sv.add_subscription m_lid addr, call (.m_tb_mio_add_subscription m_lid addr) w)

/-- Embedding of `user_models_publish_set` (app_mesh.c:184-194): the returned status and
the state. -/
def user_models_publish_set (d : mesh_defs) (sv : stack_view) (m_lid addr : Nat)
    (w : app_world) : Nat × app_world :=
  let app_key_lid := sv.app_key_find.2
  let w := call .m_tb_key_app_find w
  let w := call (.m_tb_mio_set_publi_param m_lid addr app_key_lid d.M_TTL_DEFAULT 54 0 0) w
  (sv.set_publi_param m_lid addr app_key_lid, w)

/-- The calls of one iteration of the binding loop for the model local index `i`. -/
def bind_calls_at (d : mesh_defs) (sv : stack_view) (app_key_lid i : Nat) : List app_call :=
  .m_tb_key_model_bind app_key_lid i ::
    (if sv.key_model_bind app_key_lid i = d.MESH_ERR_NO_ERROR then [.m_tb_mio_bind i] else [])

/-- The calls of `n` consecutive iterations of the binding loop, from index `i` on. -/
def bind_calls (d : mesh_defs) (sv : stack_view) (app_key_lid : Nat) :
    Nat → Nat → List app_call
  | 0, _ => []
  | n + 1, i => bind_calls_at d sv app_key_lid i ++ bind_calls d sv app_key_lid n (i + 1)

/-- The prints of `n` consecutive iterations of the binding loop, from index `i` on. -/
def bind_log (sv : stack_view) (app_key_lid : Nat) : Nat → Nat → List log_entry
  | 0, _ => []
  | n + 1, i => ⟨147, [i, sv.key_model_bind app_key_lid i]⟩ :: bind_log sv app_key_lid n (i + 1)

/-- All calls of `user_models_bind_app_key`. -/
def app_key_bind_calls (d : mesh_defs) (sv : stack_view) : List app_call :=
  .m_tb_key_app_find ::
    (if sv.app_key_find.1 = d.MESH_ERR_NO_ERROR then
      bind_calls d sv sv.app_key_find.2 (sv.nb_model - 2) 2
    else [])

/-- All prints of `user_models_bind_app_key`. -/
def app_key_bind_log (d : mesh_defs) (sv : stack_view) : List log_entry :=
  ⟨140, [sv.app_key_find.2, sv.app_key_find.1]⟩ ::
    (if sv.app_key_find.1 = d.MESH_ERR_NO_ERROR then
      bind_log sv sv.app_key_find.2 (sv.nb_model - 2) 2
    else [])

/-! ### Node reset and key indication -/

/-- Modelled from the spec: the length of a mesh key, which the spec gives as "raw key
material (16 bytes)". -/
def MESH_KEY_LEN : Nat := 16

/-- Embedding of `app_mesh_msg_node_reset_handler` (app_mesh.c:358-378). -/
def app_mesh_msg_node_reset_handler (d : mesh_defs) (msgid : Nat) (w : app_world) :
    ke_msg_status × app_world :=
  let w := print 363 [msgid] w
  let w := print 364 [w.prov_state] w
  let w := call (.m_tb_store_config 0) w
  let w := call .light_unBind_complete w
  let w := { w with quick_onoff_count := 0 }
  let w := call
    (.light_state_nv_store d.FLASH_LIGHT_PARAM_TYPE_POWER_ON_COUNT w.quick_onoff_count) w
  let w := call (.wdt_reset 0x3ff) w
  (.KE_MSG_CONSUMED, w)

/-- Parameters of `MESH_API_KEY_IND` (`struct m_tb_key`): the key type and the key
bytes. -/
structure m_tb_key where
  key_type : Nat
  key : List Nat
deriving DecidableEq, Repr

/-- Embedding of `app_mesh_msg_key_ind_handler` (app_mesh.c:380-435).  `r_key` is the copy
of the key in reverse byte order made by `mem_rcopy`; it is only printed. -/
def app_mesh_msg_key_ind_handler (d : mesh_defs) (cfg : build_cfg) (p : product_cfg)
    (sv : stack_view) (msgid : Nat) (param : m_tb_key) (w : app_world) :
    ke_msg_status × app_world :=
  let w := print 385 [msgid] w
  let r_key := (param.key.take MESH_KEY_LEN).reverse
  let w :=
    if param.key_type = d.M_TB_KEY_DEVICE then
      let w := print 394 [] w
      print 395 r_key w
    else if param.key_type = d.M_TB_KEY_NETWORK then
      let w := print 399 [] w
      print 400 r_key w
    else if param.key_type = d.M_TB_KEY_APPLICATION then
      let w := print 404 [] w
      let w := print 406 r_key w
      if p.ALI_MESH && !cfg.TEST_MESH_OTA then
        let w := user_models_bind_app_key d sv w
        let w := (user_models_subs_group_addr sv sv.g_ln_mdl_lid 0xc000 w).2
        let w := (user_models_subs_group_addr sv sv.g_ctl_mdl_lid 0xc000 w).2
        let w := (user_models_subs_group_addr sv sv.g_vdr_lid 0xc000 w).2
        let w := (user_models_publish_set d sv sv.g_vdr_lid 0xF000 w).2
        if p.GMA_SUPPORT then
          if w.quick_onoff_count = d.StartGmaOtaAdv_Cnt then
            if w.prov_state = d.M_TB_STATE_PROV_STATE_PROV then
              let w := print 420 [] w
              let w := { w with flag_gma := (w.flag_gma ||| d.Flag_InGmaState) % 256 }
              let w := { w with inGmaOtaTime := d.InGmaOtaCnt % 256 }
              call .CloseMeshAdv_OpenGmaOtaAdv w
            else w
          else w
        else w
      else w
    else w
  (.KE_MSG_CONSUMED, w)

/-! ### Model-application binding -/

/-- Parameters of `MESH_API_MODEL_APP_BIND_IND` (`struct m_api_model_app_bind_ind`), with
the fields the handler reads. -/
structure m_api_model_app_bind_ind where
  model_id : Nat
  status : Nat
deriving DecidableEq, Repr

/-- The table `config_model_id` (app_mesh.c:326). -/
def config_model_id : List Nat := [0x1000, 0x1300, 0x1303, 0x1307, 0xfe00, 0xff00]

/-- The `for` loop of `app_mesh_msg_model_app_bind_handler` (app_mesh.c:331-338), with `n`
iterations left at index `i`: the value of the 16-bit `config_num` after the loop. -/
def count_config_model (model_id : Nat) : Nat → Nat → Nat → Nat
  | 0, _, config_num => config_num
  | n + 1, i, config_num =>
    if model_id = config_model_id.getD i 0 then (config_num + 1) % 65536
    else count_config_model model_id n (i + 1) config_num

/-- Embedding of `app_mesh_msg_model_app_bind_handler` (app_mesh.c:318-355). -/
def app_mesh_msg_model_app_bind_handler (param : m_api_model_app_bind_ind)
    (w : app_world) : ke_msg_status × app_world :=
  let w := print 324 [] w
  let w := { w with config_num := count_config_model param.model_id 4 0 w.config_num }
  let w := print 339 [w.config_num] w
  let w :=
    if w.config_num = 1 then
      let w := { w with config_num := 5 }
      let w := call .light_prov_complete w
      let w := call (.m_tb_store_config 10) w
      let w := call (.m_tb_state_set_relay_state 1 1) w
      app_unprov_adv_timeout_set 0 w
    else w
  let w := print 351 [param.status] w
  let w := print 352 [param.model_id, w.config_num] w
  (.KE_MSG_CONSUMED, w)

/-- The state after the model-app-bind indications `inds`, handled in order. -/
def app_bind_run (inds : List m_api_model_app_bind_ind) (w : app_world) : app_world :=
  inds.foldl (fun w param => (app_mesh_msg_model_app_bind_handler param w).2) w

/-! ### Authentication data -/

/-- Parameters of `MESH_API_PROV_AUTH_DATA_REQ_IND`
(`struct m_api_prov_auth_data_req_ind`). -/
structure m_api_prov_auth_data_req_ind where
  auth_method : Nat
  auth_action : Nat
  auth_size : Nat
deriving DecidableEq, Repr

/-- What the authentication handler finds outside `app_mesh.c`.
* `alloc_auth_data`: the 16 bytes of `auth_data` in the message just allocated by
  `KE_MSG_ALLOC_DYN`;
* `contains_ali_data`: what `user_data_contains_ali_data()` returns;
* `read_ali_secret_key`: what `user_data_read_ali_secret_key(ali_auth_value)` returns, and
  the 16 bytes it leaves in `ali_auth_value`. -/
structure auth_env where
  alloc_auth_data : List Nat
  contains_ali_data : Bool
  read_ali_secret_key : Bool × List Nat
deriving DecidableEq, Repr

/-- Authentication value compiled in with `MAC78da07bcd71b` (app_mesh.c:533-538). -/
def auth_data_MAC78da07bcd71b : List Nat :=
  [0xe5, 0xf2, 0xd3, 0x6a, 0x86, 0x37, 0xce, 0xad, 0xa2, 0x7a, 0x28, 0x10, 0x4d, 0x0a, 0xdc,
   0xed]

/-- Authentication value compiled in with `MAC78da07bcd71c` (app_mesh.c:541-546). -/
def auth_data_MAC78da07bcd71c : List Nat :=
  [0x3d, 0x67, 0x33, 0xa7, 0x12, 0xef, 0x67, 0xc2, 0x98, 0x68, 0x9b, 0x6c, 0x25, 0x9e, 0xa6,
   0xa8]

/-- Authentication value compiled in with `MAC78da07bcd71d` (app_mesh.c:550-555). -/
def auth_data_MAC78da07bcd71d : List Nat :=
  [0xa6, 0x2f, 0x94, 0xad, 0xc3, 0x44, 0x6f, 0xdd, 0x6f, 0x5f, 0x67, 0x2a, 0x20, 0xb4, 0x2a,
   0xc5]

/-- Authentication value compiled in with `MACf8a76324a49e` (app_mesh.c:559-564). -/
def auth_data_MACf8a76324a49e : List Nat :=
  [0xf2, 0x8a, 0xce, 0xe5, 0xc4, 0x6b, 0x9f, 0x36, 0x51, 0x4b, 0x51, 0x0e, 0x25, 0x15, 0x76,
   0x6a]

/-- Authentication value compiled in with `MACf8a76324a49f` (app_mesh.c:568-573). -/
def auth_data_MACf8a76324a49f : List Nat :=
  [0x4e, 0x6d, 0x2f, 0xa4, 0x1e, 0x09, 0xd0, 0x1e, 0xc1, 0x5a, 0x4e, 0x2b, 0x2a, 0xc0, 0x70,
   0xe2]

/-- Authentication value compiled in with `TEST_MESH_OTA` (app_mesh.c:578-582). -/
def auth_value : List Nat :=
  [0x08, 0x07, 0x06, 0x05, 0x04, 0x03, 0x02, 0x01, 0x00, 0x00, 0x00, 0x00, 0x00, 0x00, 0x00,
   0x0a]

/-- The `for` loop that prints the sixteen bytes of `cfm->auth_data`
(app_mesh.c:596-599). -/
def print_auth_data (auth_data : List Nat) (w : app_world) : app_world :=
  (List.range 16).foldl (fun w i => print 598 [i, auth_data.getD i 0] w) w

/-- The conditionally compiled assignments to `cfm->auth_data` (app_mesh.c:531-584): the
`#if MAC... #elif ...` chain, then the `TEST_MESH_OTA` block.  The argument is
`cfm->auth_data` before, the result `cfm->auth_data` after. -/
def builtin_auth_data (cfg : build_cfg) (p : product_cfg) (auth_data : List Nat) :
    List Nat :=
  let auth_data :=
    if p.MAC78da07bcd71b then write16 auth_data auth_data_MAC78da07bcd71b
    else if p.MAC78da07bcd71c then write16 auth_data auth_data_MAC78da07bcd71c
    else if p.MAC78da07bcd71d then write16 auth_data auth_data_MAC78da07bcd71d
    else if p.MACf8a76324a49e then write16 auth_data auth_data_MACf8a76324a49e
    else if p.MACf8a76324a49f then write16 auth_data auth_data_MACf8a76324a49f
    else auth_data
  if cfg.TEST_MESH_OTA then write16 auth_data auth_value else auth_data

/-- Embedding of `app_mesh_api_prov_auth_data_req_ind_handler` (app_mesh.c:518-604). -/
def app_mesh_api_prov_auth_data_req_ind_handler (cfg : build_cfg) (p : product_cfg)
    (e : auth_env) (param : m_api_prov_auth_data_req_ind) (w : app_world) :
    ke_msg_status × app_world :=
  let w := print 523 [] w
  let w := print 524 [param.auth_method, param.auth_action, param.auth_size] w
  let auth_data := e.alloc_auth_data
  let accept := 1
  let auth_size := param.auth_size
  let auth_data := builtin_auth_data cfg p auth_data
  let r : app_world × List Nat :=
    if p.ALI_MESH then
      let w := call .user_data_contains_ali_data w
      if e.contains_ali_data then
        let w := call .user_data_read_ali_secret_key w
        if e.read_ali_secret_key.1 then
          (w, write16 auth_data e.read_ali_secret_key.2)
        else (w, auth_data)
      else (w, auth_data)
    else (w, auth_data)
  let w := print_auth_data r.2 r.1
  let w := call (.ke_msg_send_prov_auth_data_cfm accept auth_size r.2) w
  (.KE_MSG_CONSUMED, w)

/-- Embedding of `user_data_read_ali_secret_froward_key` (app_mesh.c:791-796).
`flash_secret` holds the `FLASH_ALI_SECRET_LEN` bytes of flash at the address of the
secret; the result is the returned truth value, the bytes left in `l_key`, and the
state. -/
def user_data_read_ali_secret_froward_key (flash_secret : List Nat) (w : app_world) :
    Bool × List Nat × app_world :=
  let l_key := flash_secret
  let w := call .flash_read_data w
  let w := print 794 l_key w
  (true, l_key, w)

/-- The build-time default secret: the value compiled in with the first of the `MAC...`
switches that is set, or else the bytes of the freshly allocated message; with
`TEST_MESH_OTA`, the test value instead. -/
def default_auth_data (cfg : build_cfg) (p : product_cfg) (alloc : List Nat) : List Nat :=
  if cfg.TEST_MESH_OTA then auth_value
  else if p.MAC78da07bcd71b then auth_data_MAC78da07bcd71b
  else if p.MAC78da07bcd71c then auth_data_MAC78da07bcd71c
  else if p.MAC78da07bcd71d then auth_data_MAC78da07bcd71d
  else if p.MACf8a76324a49e then auth_data_MACf8a76324a49e
  else if p.MACf8a76324a49f then auth_data_MACf8a76324a49f
  else alloc

/-- The authentication data that the policy "per-device secret if available, build-time
default otherwise" selects, the per-device secret being looked up in products with
`ALI_MESH` only. -/
def chosen_auth_data (cfg : build_cfg) (p : product_cfg) (e : auth_env) : List Nat :=
  if p.ALI_MESH = true ∧ e.contains_ali_data = true ∧ e.read_ali_secret_key.1 = true then
    e.read_ali_secret_key.2
  else default_auth_data cfg p e.alloc_auth_data

/-- The calls by which the handler looks up the per-device secret. -/
def secret_lookup_calls (p : product_cfg) (e : auth_env) : List app_call :=
  if p.ALI_MESH then
    .user_data_contains_ali_data ::
      (if e.contains_ali_data then [.user_data_read_ali_secret_key] else [])
  else []

/-- The prints made between the state `w` and the later state `w'`. -/
def log_since (w w' : app_world) : List log_entry :=
  w'.log.drop w.log.length

/-- The bytes that the lines printed by the loop at app_mesh.c:596-599 show. -/
def logged_auth_data (lg : List log_entry) : List Nat :=
  (lg.filter (fun e => e.line = 598)).map (fun e => e.args.getD 1 0)

/-! ## Application manager (`app.c`) -/

/-- Application environment (`struct app_env_tag`), with the fields `app.c` uses. -/
structure app_env_tag where
  conidx : Nat
  next_svc : Nat
  dev_name_len : Nat
  dev_name : List Nat
  loc_irk : List Nat
deriving DecidableEq, Repr

/-- Calls that `appm_init` and `appm_add_svc` make into code outside `app.c`.  The
service-registration functions of `appm_add_svc_func_list` are among them.
`ASSERT_INFO` is recorded when its condition is false. -/
inductive appm_call where
  | ke_task_create
  | ke_state_set
  | nvds_get
  | co_rand_word
  | nvds_put (data : List Nat)
  | ASSERT_INFO
  | app_dis_init
  | app_batt_init
  | app_oads_init
  | app_mesh_init
  | app_fff0_add_fff0s
  | app_dis_add_dis
  | app_batt_add_bas
  | app_oad_add_oads
  | app_mesh_add_mesh
  | app_gma_add_gmas
deriving DecidableEq, Repr

/-- Recognises a service-registration function. -/
def appm_call.is_add_svc : appm_call → Bool
  | .app_fff0_add_fff0s => true
  | .app_dis_add_dis => true
  | .app_batt_add_bas => true
  | .app_oad_add_oads => true
  | .app_mesh_add_mesh => true
  | .app_gma_add_gmas => true
  | _ => false

/-- Memory and surroundings of `app.c`.
* `app_env`: the C global of this name;
* `nvds_loc_irk`: the record stored under `NVDS_TAG_LOC_IRK`, if there is one;
* `nvds_put_ok`: whether the storage accepts a `nvds_put`;
* `rand_pos`: how many words `co_rand_word()` has returned so far;
* `trace`: the calls made so far. -/
structure appm_world where
  app_env : app_env_tag
  nvds_loc_irk : Option (List Nat)
  nvds_put_ok : Bool
  rand_pos : Nat
  trace : List appm_call
deriving DecidableEq, Repr

/-- Records a call into outside code that changes nothing of `appm_world`. -/
def appm_do (c : appm_call) (w : appm_world) : appm_world :=
  { w with trace := w.trace ++ [c] }

/-- Modelled from the spec: the length of the identity-resolving key, "identity-resolving
secret (fixed 16 bytes)". -/
def KEY_LEN : Nat := 16

/-- The effect of `memset(&app_env, 0, sizeof(app_env))`: every field is zero; the arrays
keep their sizes, `loc_irk` having `KEY_LEN` entries. -/
def app_env_zero (e : app_env_tag) : app_env_tag :=
  { conidx := 0
    next_svc := 0
    dev_name_len := 0
    dev_name := List.replicate e.dev_name.length 0
    loc_irk := List.replicate KEY_LEN 0 }

/-- Modelled from the spec: `nvds_get(NVDS_TAG_LOC_IRK, &key_len, app_env.loc_irk)` is the
spec's `get(tag) -> bytes | NotFound` on the record "identity-resolving secret (fixed 16
bytes)": if the record is present its bytes are copied to `app_env.loc_irk` and the result
is `true` (`NVDS_OK`); otherwise nothing is copied and the result is `false`. -/
def nvds_get_loc_irk (w : appm_world) : Bool × appm_world :=
  let w := appm_do .nvds_get w
  match w.nvds_loc_irk with
  | some key => (true, { w with app_env := { w.app_env with loc_irk := key } })
  | none => (false, w)

/-- Modelled from the spec: `nvds_put(NVDS_TAG_LOC_IRK, KEY_LEN, data)` is the spec's
`put(tag, bytes) -> Ok | Error`, which fails atomically: if the storage accepts the write
the record becomes `data` and the result is `true` (`NVDS_OK`); otherwise the storage is
unchanged and the result is `false`. -/
def nvds_put_loc_irk (data : List Nat) (w : appm_world) : Bool × appm_world :=
  let w := appm_do (.nvds_put data) w
  if w.nvds_put_ok then (true, { w with nvds_loc_irk := some data }) else (false, w)

/-- One `co_rand_word()`: the next word of the sequence `rand`. -/
def co_rand_word (rand : Nat → Nat) (w : appm_world) : Nat × appm_world :=
  (rand w.rand_pos, { appm_do .co_rand_word w with rand_pos := w.rand_pos + 1 })

/-- The loop that generates a new identity-resolving key (app.c:145-148), started at
index `counter` with `n` iterations left. -/
def generate_irk (rand : Nat → Nat) : Nat → Nat → appm_world → appm_world
  | 0, _, w => w
  | n + 1, counter, w =>
    let r := co_rand_word rand w
    let w := r.2
    let w :=
      { w with app_env := { w.app_env with loc_irk := w.app_env.loc_irk.set counter (r.1 % 256) } }
    generate_irk rand n (counter + 1) w

/-- Embedding of `appm_init` (app.c:127-170).  `rand` is the sequence of words that
`co_rand_word()` returns. -/
def appm_init (rand : Nat → Nat) (w : appm_world) : appm_world :=
  let w := { w with app_env := app_env_zero w.app_env }
  let w := appm_do .ke_task_create w
  let w := appm_do .ke_state_set w
  let g := nvds_get_loc_irk w
  let w := g.2
  let w :=
    if g.1 = false then
      let w := generate_irk rand KEY_LEN 0 w
      let r := nvds_put_loc_irk w.app_env.loc_irk w
      if r.1 = false then appm_do .ASSERT_INFO r.2 else r.2
    else w
  let w := appm_do .app_dis_init w
  let w := appm_do .app_batt_init w
  let w := appm_do .app_oads_init w
  appm_do .app_mesh_init w

/-- The key made of the low bytes of the `KEY_LEN` random words from position `pos` on. -/
def generated_irk (rand : Nat → Nat) (pos : Nat) : List Nat :=
  (List.range KEY_LEN).map (fun counter => rand (pos + counter) % 256)

/-- The value of the enumerator `APPM_SVC_LIST_STOP` (app.c:77-88). -/
def APPM_SVC_LIST_STOP (p : product_cfg) : Nat :=
  if p.GMA_SUPPORT then 6 else 5

/-- The table `appm_add_svc_func_list` (app.c:101-112). -/
def appm_add_svc_func_list (p : product_cfg) : List appm_call :=
  [.app_fff0_add_fff0s, .app_dis_add_dis, .app_batt_add_bas, .app_oad_add_oads,
   .app_mesh_add_mesh] ++ (if p.GMA_SUPPORT then [.app_gma_add_gmas] else [])

/-- Embedding of `appm_add_svc` (app.c:172-191): the returned truth value and the state.
The result is `none` when the call indexes `appm_add_svc_func_list` outside the table. -/
def appm_add_svc (p : product_cfg) (w : appm_world) : Option (Bool × appm_world) :=
  if w.app_env.next_svc ≠ APPM_SVC_LIST_STOP p then
    match (appm_add_svc_func_list p)[w.app_env.next_svc]? with
    | some add_svc_func =>
      let w := appm_do add_svc_func w
      let w := { w with app_env := { w.app_env with next_svc := (w.app_env.next_svc + 1) % 256 } }
      some (true, w)
    | none => none
  else
    some (false, w)

/-- Calling `appm_add_svc` `n` times in a row: the returned truth values in order, and the
final state. -/
def appm_add_svc_times (p : product_cfg) : Nat → appm_world → Option (List Bool × appm_world)
  | 0, w => some ([], w)
  | n + 1, w =>
    match appm_add_svc p w with
    | none => none
    | some r =>
      match appm_add_svc_times p n r.2 with
      | none => none
      | some rs => some (r.1 :: rs.1, rs.2)

/-! ## Event sequences -/

/-- The state after an enable-complete event with status `MESH_ERR_NO_ERROR`. -/
def after_enable (d : mesh_defs) (cfg : build_cfg) (w : app_world) : app_world :=
  (app_mesh_api_cmp_handler d cfg ⟨M_API_ENABLE, d.MESH_ERR_NO_ERROR⟩ w).2

/-- The state after a successful enable-complete event followed by the expiry of the
advertising timer, with no event in between. -/
def after_enable_timeout (d : mesh_defs) (cfg : build_cfg) (p : product_cfg)
    (e : prov_param_env) (w : app_world) : app_world :=
  mesh_tb_timer_expire d cfg p e (after_enable d cfg w)

/-- The message that `app_get_prov_param` leaves in `cfm`. -/
def prov_param_cfm (d : mesh_defs) (p : product_cfg) (e : prov_param_env)
    (cfm : m_api_prov_param_cfm_t) (adv_type : Nat) : m_api_prov_param_cfm_t :=
  let cfm := builtin_prov_param p cfm
  let cfm :=
    if p.ALI_MESH = true ∧ e.contains_ali_data = true then
      { cfm with
        dev_uuid := write16 cfm.dev_uuid
          (e.ali_uuid_image
            { cid := 0x01A8
              pid_adv_ver := 1
              pid_sec := 1
              pid_ota := 1
              pid_bt_ver := 1
              product_id := e.ali_product_id
              mac_addr := e.read_ali_mac.2
              feature_flag := if adv_type = 0x1 then 0x01 else 0x00 })
        uri_hash := 0x0
        oob_info := 0x0000 }
    else cfm
  { cfm with
    static_oob := d.M_PROV_STATIC_OOB_AVAILABLE
    pub_key_oob := d.M_PROV_PUB_KEY_OOB_USED
    out_oob_size := 0
    in_oob_size := 0
    out_oob_action := 0
    in_oob_action := 0
    nb_elt := 3
    info := 0 }

/-- The calls of `app_get_prov_param`: the lookups of the `ALI_MESH` block. -/
def prov_param_calls (p : product_cfg) (e : prov_param_env) : List app_call :=
  if p.ALI_MESH then
    .user_data_contains_ali_data ::
      (if e.contains_ali_data then
        [.user_data_read_ali_product_id, .user_data_read_ali_mac] else [])
  else []

/-- The state after a successful enable-complete event followed by a provisioning-state
indication with state `M_PROV_SUCCEED`. -/
def after_enable_succeed (d : mesh_defs) (cfg : build_cfg) (status : Nat) (w : app_world) :
    app_world :=
  (app_mesh_api_prov_state_ind_handler d cfg ⟨d.M_PROV_SUCCEED, status⟩
    (after_enable d cfg w)).2

/-- The calls made between the state `w` and the later state `w'`. -/
def calls_since (w w' : app_world) : List app_call :=
  w'.trace.drop w.trace.length

/-- The state `w` without its record of past calls and prints. -/
def forget_history (w : app_world) : app_world :=
  { w with trace := [], log := [] }

/-- The bind-completion actions run since `w`: the number of calls of the
post-provisioning hook between `w` and `w'`. -/
def completions_since (w w' : app_world) : Nat :=
  ((calls_since w w').filter app_call.is_prov_complete).length

/-! ## Sample values -/

/-- A choice of the header constants, used for concrete evaluations. -/
def sample_defs : mesh_defs :=
  { MESH_ERR_NO_ERROR := 0
    MESH_ERR_MDL_INVALID_OPCODE := 0x83
    MM_MSG_GEN_BAT_GET := 0x2382
    MM_MSG_GEN_BAT_STATUS := 0x2482
    M_TB_STATE_PROV_STATE_PROV := 2
    M_CONF_GATT_PROXY_STATE_ENABLED := 1
    MESH_UNPROV_ADV_TIME := 600000
    M_PROV_STARTED := 0
    M_PROV_FAILED := 2
    M_PROV_SUCCEED := 1
    Flag_InGmaState := 1
    StartGmaOtaAdv_Cnt := 5
    InGmaOtaCnt := 60
    M_TB_KEY_DEVICE := 0
    M_TB_KEY_NETWORK := 1
    M_TB_KEY_APPLICATION := 2
    M_TTL_DEFAULT := 11
    FLASH_LIGHT_PARAM_TYPE_POWER_ON_COUNT := 3
    MM_ID_GENC_BAT := 0x100D
    M_MDL_CONFIG_PUBLI_AUTH_BIT := 1
    MM_TB_STATE_ROLE_CLI := 1
    MM_TB_STATE_CFG_CB_BIT := 2
    sizeof_mm_genc_bat_env_t := 32
    M_PROV_STATIC_OOB_AVAILABLE := 1
    M_PROV_PUB_KEY_OOB_USED := 1 }

/-- A build with GATT provisioning and proxy, without the timeout-advertising variant. -/
def sample_cfg : build_cfg :=
  { BLE_MESH_GATT_PROV := true
    BLE_MESH_GATT_PROXY := true
    UNPROV_TIMEOUT_ADV := false
    TEST_MESH_OTA := false }

/-- A build with the timeout-advertising variant (`UNPROV_TIMEOUT_ADV`). -/
def timeout_adv_cfg : build_cfg :=
  { sample_cfg with UNPROV_TIMEOUT_ADV := true }

/-- A build without the GATT proxy service. -/
def no_proxy_cfg : build_cfg :=
  { sample_cfg with BLE_MESH_GATT_PROXY := false }

/-- An unprovisioned node right after bring-up: nothing programmed, nothing held, a
network-key lookup that would succeed. -/
def boot_world : app_world :=
  { timer_upd_cb := none
    timer_upd_period := 0
    timer_armed := none
    stay_awake := false
    prov_state := 0
    gatt_proxy_state := 0
    net_key_status := 0
    gma_ota_ongoing := false
    flag_gma := 0
    m_adv_interval := 0
    m_bcn_default_unprov_bcn_intv_ms := 0
    inGmaOtaTime := 0
    quick_onoff_count := 0
    config_num := 0
    trace := []
    log := [] }

/-- A product with the Ali and GMA features and no built-in authentication value. -/
def sample_product : product_cfg :=
  { ALI_MESH := true
    GMA_SUPPORT := true
    MAC78da07bcd71b := false
    MAC78da07bcd71c := false
    MAC78da07bcd71d := false
    MACf8a76324a49e := false
    MACf8a76324a49f := false }

/-- Stack tables with six registered models, an application key at local index 1, and a
key binding that fails (status `0x85`) for the model local index 3 only. -/
def sample_stack : stack_view :=
  { app_key_find := (0, 1)
    nb_model := 6
    key_model_bind := fun _ mdl_lid => if mdl_lid = 3 then 0x85 else 0
    add_subscription := fun _ _ => 0
    set_publi_param := fun _ _ _ => 0
    g_ln_mdl_lid := 2
    g_ctl_mdl_lid := 3
    g_vdr_lid := 5 }

/-- A product without the GMA feature. -/
def no_gma_product : product_cfg :=
  { sample_product with GMA_SUPPORT := false }

/-- A provisioned node whose `quick_onoff_count` is at the sample threshold. -/
def threshold_world : app_world :=
  { boot_world with prov_state := 2, quick_onoff_count := 5 }

/-- An application-key indication. -/
def sample_app_key : m_tb_key :=
  { key_type := 2, key := [1, 2, 3, 4, 5, 6, 7, 8, 9, 10, 11, 12, 13, 14, 15, 16] }

/-- A product without the Ali features. -/
def no_ali_product : product_cfg :=
  { sample_product with ALI_MESH := false }

/-- A per-device secret of sixteen bytes. -/
def sample_secret : List Nat :=
  [0x11, 0x22, 0x33, 0x44, 0x55, 0x66, 0x77, 0x88, 0x99, 0xaa, 0xbb, 0xcc, 0xdd, 0xee, 0xff,
   0x10]

/-- Another per-device secret, different from `sample_secret` in its last byte. -/
def other_secret : List Nat :=
  [0x11, 0x22, 0x33, 0x44, 0x55, 0x66, 0x77, 0x88, 0x99, 0xaa, 0xbb, 0xcc, 0xdd, 0xee, 0xff,
   0x20]

/-- Surroundings in which the message is allocated zeroed and the secret `secret` is
present and readable. -/
def auth_env_with (secret : List Nat) : auth_env :=
  { alloc_auth_data := List.replicate 16 0
    contains_ali_data := true
    read_ali_secret_key := (true, secret) }

/-- An authentication-data request. -/
def sample_auth_req : m_api_prov_auth_data_req_ind :=
  { auth_method := 1, auth_action := 0, auth_size := 16 }

/-- An application state with arbitrary leftovers in `app_env`, an empty storage that
accepts writes, and no call made yet. -/
def dirty_appm_world : appm_world :=
  { app_env :=
      { conidx := 3, next_svc := 9, dev_name_len := 2, dev_name := [0x42, 0x4b, 0]
        loc_irk := [1, 2, 3, 4, 5, 6, 7, 8, 9, 10, 11, 12, 13, 14, 15, 16] }
    nvds_loc_irk := none
    nvds_put_ok := true
    rand_pos := 0
    trace := [] }

/-- A sequence of random words. -/
def sample_rand (i : Nat) : Nat := 0x1234 + 0x101 * i

/-- A model-app-bind indication for the model `0x1000`. -/
def onoff_bind_ind : m_api_model_app_bind_ind :=
  { model_id := 0x1000, status := 0 }

/-- A zeroed provisioning-parameter message. -/
def zero_prov_param_cfm : m_api_prov_param_cfm_t :=
  { dev_uuid := List.replicate 16 0
    uri_hash := 0
    oob_info := 0
    static_oob := 0
    pub_key_oob := 0
    out_oob_size := 0
    in_oob_size := 0
    out_oob_action := 0
    in_oob_action := 0
    nb_elt := 0
    info := 0 }

/-- Surroundings in which the message is allocated zeroed, user data is present, and an
`ali_uuid_t` lies in memory as company id, packed `pid` byte, product id, address,
feature flag and two `rfu` bytes. -/
def sample_prov_env : prov_param_env :=
  { alloc_cfm := zero_prov_param_cfm
    contains_ali_data := true
    ali_product_id := 0x0233
    read_ali_mac := (true, [0x1b, 0xd7, 0xbc, 0x07, 0xda, 0x78])
    ali_uuid_image := fun u =>
      [u.cid % 256, u.cid / 256 % 256,
       u.pid_adv_ver + 16 * u.pid_sec + 32 * u.pid_ota + 64 * u.pid_bt_ver,
       u.product_id % 256, u.product_id / 256 % 256, u.product_id / 65536 % 256,
       u.product_id / 16777216 % 256]
      ++ u.mac_addr.take 6 ++ [u.feature_flag, 0, 0] }

/-- A routing layer whose allocation succeeds and returns a zeroed buffer. -/
def sample_alloc_ok (n : Nat) : Nat × mesh_tb_buf_t :=
  (0, { data_len := n, mem := fun _ => 0
        env := { app_key_lid := 0, u_addr := 0, info := 0, mdl_lid := 0, opcode := 0 } })

/-- A routing layer whose allocation fails with status `0x81`. -/
def sample_alloc_fail (n : Nat) : Nat × mesh_tb_buf_t :=
  (0x81, { data_len := n, mem := fun _ => 0
           env := { app_key_lid := 0, u_addr := 0, info := 0, mdl_lid := 0, opcode := 0 } })

/-- A route environment as received with a message from `src`. -/
def rx_route_env (opcode src : Nat) : mm_route_buf_env_t :=
  { app_key_lid := 0, u_addr := src, info := 0, mdl_lid := 0, opcode := opcode }

/-! ## Properties of the Generic Battery client model -/

/-- C1: a Generic Battery Status message from source `s` whose payload is the eight bytes
`b0 .. b7` makes `mm_genc_bat_cb_rx` send exactly one indication to the application, with
source `s`, level `b0`, time to discharge `b1 + 256*b2 + 65536*b3`, time to charge
`b4 + 256*b5 + 65536*b6` and flags `b7`; it makes no other call. -/
theorem rx_status_decodes_payload (d : mesh_defs) (p_env : mm_tb_state_mdl_env_t)
    (rest : Nat → Nat) (buf_env p_route_env : mm_route_buf_env_t)
    (b0 b1 b2 b3 b4 b5 b6 b7 : Nat)
    (hop : p_route_env.opcode = d.MM_MSG_GEN_BAT_STATUS)
    (h0 : b0 < 256) (h1 : b1 < 256) (h2 : b2 < 256) (h3 : b3 < 256)
    (h4 : b4 < 256) (h5 : b5 < 256) (h6 : b6 < 256) (h7 : b7 < 256) :
    (mm_genc_bat_cb_rx d p_env
        (buf_of_payload [b0, b1, b2, b3, b4, b5, b6, b7] rest buf_env) p_route_env).trace
      = [.mm_api_send_cli_bat_ind p_route_env.u_addr b0 (b1 + 256 * b2 + 65536 * b3)
          (b4 + 256 * b5 + 65536 * b6) b7] := by
  simp [mm_genc_bat_cb_rx, hop, buf_of_payload, read8, co_read24p,
    MM_GEN_BAT_STATUS_LEVEL_POS, MM_GEN_BAT_STATUS_TIME_DISCHARGE_POS,
    MM_GEN_BAT_STATUS_TIME_CHARGE_POS, MM_GEN_BAT_STATUS_FLAGS_POS,
    Nat.mod_eq_of_lt h0, Nat.mod_eq_of_lt h1, Nat.mod_eq_of_lt h2, Nat.mod_eq_of_lt h3,
    Nat.mod_eq_of_lt h4, Nat.mod_eq_of_lt h5, Nat.mod_eq_of_lt h6, Nat.mod_eq_of_lt h7]

/-- The payload `[0x64, 0x01,0x02,0x03, 0x04,0x05,0x06, 0x01]` from source `0x0005` decodes
to level 100, time to discharge `0x030201`, time to charge `0x060504`, flags 1. -/
theorem rx_status_decodes_payload_witness :
    (mm_genc_bat_cb_rx sample_defs ⟨3⟩
        (buf_of_payload [0x64, 0x01, 0x02, 0x03, 0x04, 0x05, 0x06, 0x01] (fun _ => 0xAA)
          (rx_route_env 0x2482 0x0005))
        (rx_route_env 0x2482 0x0005)).trace
      = [.mm_api_send_cli_bat_ind 0x0005 100 0x030201 0x060504 1] :=
  rx_status_decodes_payload sample_defs ⟨3⟩ (fun _ => 0xAA) (rx_route_env 0x2482 0x0005)
    (rx_route_env 0x2482 0x0005) 0x64 0x01 0x02 0x03 0x04 0x05 0x06 0x01 rfl
    (by decide) (by decide) (by decide) (by decide) (by decide) (by decide) (by decide)
    (by decide)

/-- C2: `mm_genc_bat_cb_opcode_check` returns `MESH_ERR_NO_ERROR` exactly for the opcode
`MM_MSG_GEN_BAT_STATUS` and `MESH_ERR_MDL_INVALID_OPCODE` for every other opcode; on an
opcode the check accepts, `mm_genc_bat_cb_rx` sends an indication; on an opcode the check
rejects, whatever the buffer, `mm_genc_bat_cb_rx` makes no call, reads nothing from the
buffer and returns the model environment as it was. -/
theorem opcode_check_matches_rx (d : mesh_defs) (p_env : mm_tb_state_mdl_env_t)
    (p_buf : mesh_tb_buf_t) (p_route_env : mm_route_buf_env_t)
    (hne : d.MESH_ERR_MDL_INVALID_OPCODE ≠ d.MESH_ERR_NO_ERROR) :
    ((mm_genc_bat_cb_opcode_check d p_env p_route_env.opcode).1 = d.MESH_ERR_NO_ERROR
        ↔ p_route_env.opcode = d.MM_MSG_GEN_BAT_STATUS)
    ∧ (p_route_env.opcode ≠ d.MM_MSG_GEN_BAT_STATUS →
        (mm_genc_bat_cb_opcode_check d p_env p_route_env.opcode).1
          = d.MESH_ERR_MDL_INVALID_OPCODE)
    ∧ ((mm_genc_bat_cb_opcode_check d p_env p_route_env.opcode).1 = d.MESH_ERR_NO_ERROR →
        ((mm_genc_bat_cb_rx d p_env p_buf p_route_env).trace.filter mm_call.is_ind).length
          = 1)
    ∧ ((mm_genc_bat_cb_opcode_check d p_env p_route_env.opcode).1 ≠ d.MESH_ERR_NO_ERROR →
        (mm_genc_bat_cb_rx d p_env p_buf p_route_env).trace = []
        ∧ (mm_genc_bat_cb_rx d p_env p_buf p_route_env).reads = []
        ∧ (mm_genc_bat_cb_rx d p_env p_buf p_route_env).env = p_env) := by
  by_cases hop : p_route_env.opcode = d.MM_MSG_GEN_BAT_STATUS
  · simp [mm_genc_bat_cb_opcode_check, mm_genc_bat_cb_rx, hop, mm_call.is_ind]
  · simp [mm_genc_bat_cb_opcode_check, mm_genc_bat_cb_rx, hop, hne]

/-- With the sample constants, the opcode `0x2382` (Generic Battery Get) is rejected by the
check and ignored by the receive callback. -/
theorem opcode_check_matches_rx_witness :
    (mm_genc_bat_cb_opcode_check sample_defs ⟨3⟩ 0x2382).1 = 0x83
    ∧ (mm_genc_bat_cb_rx sample_defs ⟨3⟩
        (buf_of_payload [1, 2, 3, 4, 5, 6, 7, 8] (fun _ => 0) (rx_route_env 0x2382 5))
        (rx_route_env 0x2382 5)).env = ⟨3⟩ :=
  have h := opcode_check_matches_rx sample_defs ⟨3⟩
    (buf_of_payload [1, 2, 3, 4, 5, 6, 7, 8] (fun _ => 0) (rx_route_env 0x2382 5))
    (rx_route_env 0x2382 5) (by decide)
  ⟨h.2.1 (by decide), (h.2.2.2 (by decide)).2.2⟩

/-- C3, as stated, fails: for a Generic Battery Status message whose payload is the three
bytes `64 01 02`, it is not the case that `mm_genc_bat_cb_rx` sends no indication and
reads only positions inside the payload. -/
theorem rx_short_payload_counterexample :
    ¬ (((mm_genc_bat_cb_rx sample_defs ⟨3⟩
            (buf_of_payload [0x64, 0x01, 0x02] (fun _ => 0xAA) (rx_route_env 0x2482 5))
            (rx_route_env 0x2482 5)).trace.filter mm_call.is_ind) = []
        ∧ ∀ off ∈ (mm_genc_bat_cb_rx sample_defs ⟨3⟩
            (buf_of_payload [0x64, 0x01, 0x02] (fun _ => 0xAA) (rx_route_env 0x2482 5))
            (rx_route_env 0x2482 5)).reads,
          off < (buf_of_payload [0x64, 0x01, 0x02] (fun _ => 0xAA)
            (rx_route_env 0x2482 5)).data_len) := by
  simp [mm_genc_bat_cb_rx, sample_defs, rx_route_env, mm_call.is_ind]

/-- C3, amended: `mm_genc_bat_cb_rx` makes no check of the payload length.  For a Generic
Battery Status message whose payload is shorter than eight bytes it still reads the
positions 0 to 7 behind the data pointer, among them the position 7, which lies at or
beyond the payload's end, and sends exactly one indication, decoded from the eight bytes
found at these positions. -/
theorem rx_short_payload_still_decodes (d : mesh_defs) (p_env : mm_tb_state_mdl_env_t)
    (p_buf : mesh_tb_buf_t) (p_route_env : mm_route_buf_env_t)
    (hop : p_route_env.opcode = d.MM_MSG_GEN_BAT_STATUS) (hlen : p_buf.data_len < 8) :
    (mm_genc_bat_cb_rx d p_env p_buf p_route_env).reads = [0, 1, 2, 3, 4, 5, 6, 7]
    ∧ (∃ off ∈ (mm_genc_bat_cb_rx d p_env p_buf p_route_env).reads, p_buf.data_len ≤ off)
    ∧ (mm_genc_bat_cb_rx d p_env p_buf p_route_env).trace
        = [.mm_api_send_cli_bat_ind p_route_env.u_addr (p_buf.mem 0 % 256)
            (p_buf.mem 1 % 256 + 256 * (p_buf.mem 2 % 256) + 65536 * (p_buf.mem 3 % 256))
            (p_buf.mem 4 % 256 + 256 * (p_buf.mem 5 % 256) + 65536 * (p_buf.mem 6 % 256))
            (p_buf.mem 7 % 256)] := by
  refine ⟨?_, ⟨7, ?_, by omega⟩, ?_⟩ <;>
    simp [mm_genc_bat_cb_rx, hop, read8, co_read24p, co_read24p_reads,
      MM_GEN_BAT_STATUS_LEVEL_POS, MM_GEN_BAT_STATUS_TIME_DISCHARGE_POS,
      MM_GEN_BAT_STATUS_TIME_CHARGE_POS, MM_GEN_BAT_STATUS_FLAGS_POS]

/-- A status message with the three-byte payload `64 01 02`, followed in memory by bytes
`AA`, is decoded to level 100, time to discharge `0xAA0201`, time to charge `0xAAAAAA` and
flags `0xAA`. -/
theorem rx_short_payload_still_decodes_witness :
    (mm_genc_bat_cb_rx sample_defs ⟨3⟩
        (buf_of_payload [0x64, 0x01, 0x02] (fun _ => 0xAA) (rx_route_env 0x2482 5))
        (rx_route_env 0x2482 5)).trace
      = [.mm_api_send_cli_bat_ind 5 100 0xAA0201 0xAAAAAA 0xAA] :=
  (rx_short_payload_still_decodes sample_defs ⟨3⟩
    (buf_of_payload [0x64, 0x01, 0x02] (fun _ => 0xAA) (rx_route_env 0x2482 5))
    (rx_route_env 0x2482 5) rfl (by decide)).2.2

/-- C4: when the allocation succeeds, `mm_genc_bat_cb_get` makes one allocation request and
then hands exactly one buffer to the routing layer, the allocated one, with opcode
`MM_MSG_GEN_BAT_GET`, destination `dst`, application-key index 6, info 0 and the model's
local id in its environment; it returns `MESH_ERR_NO_ERROR`, leaves the model environment
as it was, and behaves the same for every `get_info`. -/
theorem get_sends_one_envelope (d : mesh_defs) (alloc : Nat → Nat × mesh_tb_buf_t)
    (p_env : mm_tb_state_mdl_env_t) (dst get_info : Nat)
    (hok : (alloc 0).1 = d.MESH_ERR_NO_ERROR) :
    (mm_genc_bat_cb_get d alloc p_env dst get_info).2.trace
        = [.mm_route_buf_alloc 0,
           .mm_route_send
             { (alloc 0).2 with
               env :=
                { app_key_lid := 6, u_addr := dst, info := 0, mdl_lid := p_env.mdl_lid
                  opcode := d.MM_MSG_GEN_BAT_GET } }]
    ∧ ((mm_genc_bat_cb_get d alloc p_env dst get_info).2.trace.filter
          mm_call.is_send).length = 1
    ∧ (mm_genc_bat_cb_get d alloc p_env dst get_info).1 = d.MESH_ERR_NO_ERROR
    ∧ (mm_genc_bat_cb_get d alloc p_env dst get_info).2.env = p_env
    ∧ ∀ other_info : Nat,
        mm_genc_bat_cb_get d alloc p_env dst other_info
          = mm_genc_bat_cb_get d alloc p_env dst get_info := by
  simp [mm_genc_bat_cb_get, hok, mm_call.is_send]

/-- With an allocation that succeeds, a get to `0x0012` by the model with local id 3 sends
one envelope to `0x0012` with key index 6 and the Get opcode. -/
theorem get_sends_one_envelope_witness :
    (mm_genc_bat_cb_get sample_defs sample_alloc_ok ⟨3⟩ 0x0012 7).2.trace
      = [.mm_route_buf_alloc 0,
         .mm_route_send
           { (sample_alloc_ok 0).2 with
             env :=
              { app_key_lid := 6, u_addr := 0x0012, info := 0, mdl_lid := 3
                opcode := 0x2382 } }] :=
  (get_sends_one_envelope sample_defs sample_alloc_ok ⟨3⟩ 0x0012 7 rfl).1

/-- C5: when the allocation fails with a status other than `MESH_ERR_NO_ERROR`,
`mm_genc_bat_cb_get` returns that status; its only call is the one allocation request, so
nothing is handed to the routing layer and the allocation is not tried again; the model
environment is as it was. -/
theorem get_alloc_failure_is_returned (d : mesh_defs) (alloc : Nat → Nat × mesh_tb_buf_t)
    (p_env : mm_tb_state_mdl_env_t) (dst get_info : Nat)
    (hfail : (alloc 0).1 ≠ d.MESH_ERR_NO_ERROR) :
    (mm_genc_bat_cb_get d alloc p_env dst get_info).1 = (alloc 0).1
    ∧ (mm_genc_bat_cb_get d alloc p_env dst get_info).2.trace = [.mm_route_buf_alloc 0]
    ∧ (mm_genc_bat_cb_get d alloc p_env dst get_info).2.trace.filter mm_call.is_send = []
    ∧ ((mm_genc_bat_cb_get d alloc p_env dst get_info).2.trace.filter
          mm_call.is_alloc).length = 1
    ∧ (mm_genc_bat_cb_get d alloc p_env dst get_info).2.env = p_env := by
  simp [mm_genc_bat_cb_get, hfail, mm_call.is_send, mm_call.is_alloc]

/-- With an allocation that fails with status `0x81`, a get returns `0x81` and sends
nothing. -/
theorem get_alloc_failure_is_returned_witness :
    (mm_genc_bat_cb_get sample_defs sample_alloc_fail ⟨3⟩ 0x0012 7).1 = 0x81
    ∧ (mm_genc_bat_cb_get sample_defs sample_alloc_fail ⟨3⟩ 0x0012 7).2.trace.filter
        mm_call.is_send = [] :=
  have h := get_alloc_failure_is_returned sample_defs sample_alloc_fail ⟨3⟩ 0x0012 7
    (by decide)
  ⟨h.1, h.2.2.1⟩

/-- C20: `mm_genc_bat_register` returns the status of `m_api_register_model` if that is an
error, without attempting the state registration; otherwise it attempts the state
registration once and returns the status of `mm_tb_state_register`.  If both steps
succeed, the three callbacks are installed in the model environment, one registration
indication is sent to the application and the result is `MESH_ERR_NO_ERROR`; if a step
fails, the environment is as before and no indication is sent. -/
theorem register_reports_failures (d : mesh_defs) (reg_model : Nat × Nat)
    (state_register : Nat) (p_env_bat : mm_genc_bat_env_t) :
    (reg_model.1 ≠ d.MESH_ERR_NO_ERROR →
      (mm_genc_bat_register d reg_model state_register p_env_bat).status = reg_model.1
      ∧ (mm_genc_bat_register d reg_model state_register p_env_bat).trace.filter
          mm_call.is_state_register = [])
    ∧ (reg_model.1 = d.MESH_ERR_NO_ERROR →
      (mm_genc_bat_register d reg_model state_register p_env_bat).status = state_register
      ∧ ((mm_genc_bat_register d reg_model state_register p_env_bat).trace.filter
          mm_call.is_state_register).length = 1)
    ∧ (reg_model.1 = d.MESH_ERR_NO_ERROR ∧ state_register = d.MESH_ERR_NO_ERROR →
      (mm_genc_bat_register d reg_model state_register p_env_bat).status
          = d.MESH_ERR_NO_ERROR
      ∧ (mm_genc_bat_register d reg_model state_register p_env_bat).env
          = { cb_rx := some .mm_genc_bat_cb_rx
              cb_opcode_check := some .mm_genc_bat_cb_opcode_check
              cb_get := some .mm_genc_bat_cb_get }
      ∧ (mm_genc_bat_register d reg_model state_register p_env_bat).trace.filter
          mm_call.is_register_ind
          = [.mm_api_send_register_ind d.MM_ID_GENC_BAT 0 reg_model.2])
    ∧ (¬ (reg_model.1 = d.MESH_ERR_NO_ERROR ∧ state_register = d.MESH_ERR_NO_ERROR) →
      (mm_genc_bat_register d reg_model state_register p_env_bat).status
          ≠ d.MESH_ERR_NO_ERROR
      ∧ (mm_genc_bat_register d reg_model state_register p_env_bat).env = p_env_bat
      ∧ (mm_genc_bat_register d reg_model state_register p_env_bat).trace.filter
          mm_call.is_register_ind = []) := by
  by_cases h1 : reg_model.1 = d.MESH_ERR_NO_ERROR <;>
    by_cases h2 : state_register = d.MESH_ERR_NO_ERROR <;>
    simp [mm_genc_bat_register, h1, h2, mm_call.is_state_register,
      mm_call.is_register_ind]

/-- When `m_api_register_model` fails with status `0x80`, the registration returns `0x80`
and the state registration is not attempted; when both steps succeed for the local index
4, the indication for that index is sent. -/
theorem register_reports_failures_witness :
    (mm_genc_bat_register sample_defs (0x80, 0) 0 ⟨none, none, none⟩).status = 0x80
    ∧ (mm_genc_bat_register sample_defs (0, 4) 0 ⟨none, none, none⟩).trace.filter
        mm_call.is_register_ind = [.mm_api_send_register_ind 0x100D 0 4] :=
  ⟨((register_reports_failures sample_defs (0x80, 0) 0 ⟨none, none, none⟩).1
      (by decide)).1,
   ((register_reports_failures sample_defs (0, 4) 0 ⟨none, none, none⟩).2.2.1
      ⟨rfl, rfl⟩).2.2⟩

/-! ## Properties of the provisioning orchestrator -/

/-- C6: on an enable-complete event (`cmd_code = M_API_ENABLE`), with the configured
advertising time `MESH_UNPROV_ADV_TIME` not zero and representable in the `uint32_t`
parameter of `app_unprov_adv_timeout_set`: if the status is `MESH_ERR_NO_ERROR` and
the node is not provisioned, `app_mesh_api_cmp_handler` stores the timeout callback and the
period `MESH_UNPROV_ADV_TIME` in the timer, programs the timer with that delay and sets the
stay-awake hold, by exactly these two calls; if the status is an error or the node is
provisioned, the timer and the stay-awake hold are as before and no timer or stay-awake
call is made. -/
theorem enable_complete_arms_timer (d : mesh_defs) (cfg : build_cfg) (status : Nat)
    (w : app_world) (hT : d.MESH_UNPROV_ADV_TIME ≠ 0)
    (hB : d.MESH_UNPROV_ADV_TIME < 2 ^ 32) :
    (status = d.MESH_ERR_NO_ERROR ∧ w.prov_state ≠ d.M_TB_STATE_PROV_STATE_PROV →
      (app_mesh_api_cmp_handler d cfg ⟨M_API_ENABLE, status⟩ w).2.timer_armed
          = some d.MESH_UNPROV_ADV_TIME
      ∧ (app_mesh_api_cmp_handler d cfg ⟨M_API_ENABLE, status⟩ w).2.timer_upd_period
          = d.MESH_UNPROV_ADV_TIME
      ∧ (app_mesh_api_cmp_handler d cfg ⟨M_API_ENABLE, status⟩ w).2.timer_upd_cb
          = some timer_cb.app_unprov_adv_cb_timerout
      ∧ (app_mesh_api_cmp_handler d cfg ⟨M_API_ENABLE, status⟩ w).2.stay_awake = true
      ∧ (app_mesh_api_cmp_handler d cfg ⟨M_API_ENABLE, status⟩ w).2.trace
          = w.trace ++ [.mesh_tb_timer_set d.MESH_UNPROV_ADV_TIME, .rwip_prevent_sleep_set])
    ∧ (status ≠ d.MESH_ERR_NO_ERROR ∨ w.prov_state = d.M_TB_STATE_PROV_STATE_PROV →
      (app_mesh_api_cmp_handler d cfg ⟨M_API_ENABLE, status⟩ w).2.timer_armed
          = w.timer_armed
      ∧ (app_mesh_api_cmp_handler d cfg ⟨M_API_ENABLE, status⟩ w).2.timer_upd_period
          = w.timer_upd_period
      ∧ (app_mesh_api_cmp_handler d cfg ⟨M_API_ENABLE, status⟩ w).2.timer_upd_cb
          = w.timer_upd_cb
      ∧ (app_mesh_api_cmp_handler d cfg ⟨M_API_ENABLE, status⟩ w).2.stay_awake
          = w.stay_awake
      ∧ ∃ calls, (app_mesh_api_cmp_handler d cfg ⟨M_API_ENABLE, status⟩ w).2.trace
          = w.trace ++ calls
        ∧ calls.filter app_call.is_timer = []
        ∧ calls.filter app_call.is_sleep_set = []
        ∧ calls.filter app_call.is_sleep_clear = []) := by
  have hm : d.MESH_UNPROV_ADV_TIME % 4294967296 = d.MESH_UNPROV_ADV_TIME :=
    Nat.mod_eq_of_lt (by simpa using hB)
  constructor
  · rintro ⟨hs, hp⟩
    simp [app_mesh_api_cmp_handler, M_API_ENABLE, M_API_STORAGE_LOAD, print, hs, hp,
      app_unprov_adv_timeout_set, hT, hm, mesh_tb_timer_set, rwip_prevent_sleep_set]
  · intro h
    by_cases hs : status = d.MESH_ERR_NO_ERROR
    · have hp : w.prov_state = d.M_TB_STATE_PROV_STATE_PROV := by
        rcases h with h | h
        · exact absurd hs h
        · exact h
      by_cases hx : cfg.TEST_MESH_OTA = false ∧ cfg.BLE_MESH_GATT_PROXY = true
      · simp [app_mesh_api_cmp_handler, M_API_ENABLE, M_API_STORAGE_LOAD, print, hs, hp,
          hx.1, hx.2, m_tb_state_set_gatt_proxy_state, app_call.is_timer,
          app_call.is_sleep_set, app_call.is_sleep_clear]
      · have hx2 : (!cfg.TEST_MESH_OTA && cfg.BLE_MESH_GATT_PROXY) = false := by
          revert hx
          cases cfg.TEST_MESH_OTA <;> cases cfg.BLE_MESH_GATT_PROXY <;> simp
        simp [app_mesh_api_cmp_handler, M_API_ENABLE, M_API_STORAGE_LOAD, print, hs, hp,
          hx2]
    · simp [app_mesh_api_cmp_handler, M_API_ENABLE, M_API_STORAGE_LOAD, print, hs]

/-- From the boot state (unprovisioned), a successful enable-complete programs the timer
with the sample advertising time and sets the stay-awake hold. -/
theorem enable_complete_arms_timer_witness :
    (app_mesh_api_cmp_handler sample_defs sample_cfg ⟨M_API_ENABLE, 0⟩ boot_world).2.timer_armed
        = some 600000
    ∧ (app_mesh_api_cmp_handler sample_defs sample_cfg ⟨M_API_ENABLE, 0⟩ boot_world).2.stay_awake
        = true :=
  have h := (enable_complete_arms_timer sample_defs sample_cfg 0 boot_world (by decide)
    (by decide)).1 ⟨rfl, by decide⟩
  ⟨h.1, h.2.2.2.1⟩

/-- The loop that prints `cfm->dev_uuid` appends one line per index to the log and
changes nothing else. -/
theorem print_dev_uuid_eq (dev_uuid : List Nat) (w : app_world) :
    print_dev_uuid dev_uuid w
      = { w with
          log := w.log ++ (List.range 16).map
            (fun i => (⟨696, [i, dev_uuid.getD i 0]⟩ : log_entry)) } := by
  have key : ∀ (l : List Nat) (w : app_world),
      l.foldl (fun w i => print 696 [i, dev_uuid.getD i 0] w) w
        = { w with
            log := w.log ++ l.map (fun i => (⟨696, [i, dev_uuid.getD i 0]⟩ : log_entry)) } := by
    intro l
    induction l with
    | nil => intro w; simp
    | cons a l ih =>
      intro w
      rw [List.foldl_cons, ih]
      simp [print]
  exact key (List.range 16) w

/-- What `app_get_prov_param` does: it fills the message, makes the lookups of the
`ALI_MESH` block and prints the sixteen bytes of the device UUID. -/
theorem app_get_prov_param_eq (d : mesh_defs) (p : product_cfg) (e : prov_param_env)
    (cfm : m_api_prov_param_cfm_t) (adv_type : Nat) (w : app_world) :
    app_get_prov_param d p e cfm adv_type w
      = (prov_param_cfm d p e cfm adv_type,
         { w with
           trace := w.trace ++ prov_param_calls p e
           log := w.log ++ (List.range 16).map
            (fun i => (⟨696, [i, (prov_param_cfm d p e cfm adv_type).dev_uuid.getD i 0]⟩ :
              log_entry)) }) := by
  by_cases h1 : p.ALI_MESH = true <;> by_cases h2 : e.contains_ali_data = true <;>
    simp [app_get_prov_param, prov_param_cfm, print_dev_uuid_eq, prov_param_calls, call,
      h1, h2]

/-- The lookups of `app_get_prov_param` neither set nor clear the stay-awake hold. -/
theorem prov_param_calls_no_sleep (p : product_cfg) (e : prov_param_env) :
    (prov_param_calls p e).filter app_call.is_sleep_clear = []
    ∧ (prov_param_calls p e).filter app_call.is_sleep_set = []
    ∧ (prov_param_calls p e).filter app_call.is_prov_param_cfm = [] := by
  by_cases h1 : p.ALI_MESH = true <;> by_cases h2 : e.contains_ali_data = true <;>
    simp [prov_param_calls, h1, h2, app_call.is_sleep_clear, app_call.is_sleep_set,
      app_call.is_prov_param_cfm]

/-- C7, as stated, fails: in a build with `UNPROV_TIMEOUT_ADV`, after enable-complete in
the unprovisioned boot state and the expiry of the timer, it is not the case that the
stay-awake hold was cleared once and is released when the callback returns. -/
theorem timeout_hold_counterexample :
    ¬ (((calls_since (after_enable sample_defs timeout_adv_cfg boot_world)
            (after_enable_timeout sample_defs timeout_adv_cfg sample_product
              sample_prov_env boot_world)).filter
          app_call.is_sleep_clear).length = 1
        ∧ (after_enable_timeout sample_defs timeout_adv_cfg sample_product sample_prov_env
            boot_world).stay_awake = false) := by
  decide

/-- C7, amended: after an enable-complete event in unprovisioned state, with the
advertising time not zero and representable in `uint32_t`, the expiry of the advertising
timer runs `app_unprov_adv_cb_timerout`, which stops the unprovisioned beacon, stops the
GATT bearer and scanning in a build with `BLE_MESH_GATT_PROV`, and clears the stay-awake
hold exactly once.  In a build without `UNPROV_TIMEOUT_ADV` these are all its calls and
the hold is released when the callback returns.  In a build with `UNPROV_TIMEOUT_ADV` the
callback sets the hold again after clearing it, fills one more provisioning-parameter
confirmation with `app_get_prov_param(cfm, 1)` (which makes the user-data lookups of an
`ALI_MESH` product and prints the device UUID), sends it, and returns with the hold
set. -/
theorem timeout_clears_hold_once (d : mesh_defs) (cfg : build_cfg) (p : product_cfg)
    (e : prov_param_env) (w : app_world)
    (hT : d.MESH_UNPROV_ADV_TIME ≠ 0) (hB : d.MESH_UNPROV_ADV_TIME < 2 ^ 32)
    (hp : w.prov_state ≠ d.M_TB_STATE_PROV_STATE_PROV) :
    calls_since (after_enable d cfg w) (after_enable_timeout d cfg p e w)
        = [.m_bcn_stop_tx_unprov_bcn]
          ++ (if cfg.BLE_MESH_GATT_PROV then
                [.m_prov_bearer_gatt_stop, .m_prov_bearer_scan_stop] else [])
          ++ [.led_deinit, .rwip_prevent_sleep_clear]
          ++ (if cfg.UNPROV_TIMEOUT_ADV then
                [.rwip_prevent_sleep_set] ++ prov_param_calls p e
                ++ [.ke_msg_send_prov_param_cfm
                      (app_get_prov_param d p e e.alloc_cfm 1 w).1,
                    .m_link_open_ack_dis]
              else [])
    ∧ ((calls_since (after_enable d cfg w) (after_enable_timeout d cfg p e w)).filter
          app_call.is_sleep_clear).length = 1
    ∧ ((calls_since (after_enable d cfg w) (after_enable_timeout d cfg p e w)).filter
          app_call.is_sleep_set).length = (if cfg.UNPROV_TIMEOUT_ADV then 1 else 0)
    ∧ ((calls_since (after_enable d cfg w) (after_enable_timeout d cfg p e w)).filter
          app_call.is_prov_param_cfm).length = (if cfg.UNPROV_TIMEOUT_ADV then 1 else 0)
    ∧ log_since (after_enable d cfg w) (after_enable_timeout d cfg p e w)
        = ⟨206, []⟩ ::
          (if cfg.UNPROV_TIMEOUT_ADV then
            (List.range 16).map
              (fun i => (⟨696,
                [i, (app_get_prov_param d p e e.alloc_cfm 1 w).1.dev_uuid.getD i 0]⟩ :
                log_entry))
          else [])
    ∧ (after_enable_timeout d cfg p e w).stay_awake = cfg.UNPROV_TIMEOUT_ADV
    ∧ (after_enable_timeout d cfg p e w).timer_armed = none := by
  have he : after_enable d cfg w
      = { w with
          timer_upd_cb := some timer_cb.app_unprov_adv_cb_timerout
          timer_upd_period := d.MESH_UNPROV_ADV_TIME
          timer_armed := some d.MESH_UNPROV_ADV_TIME
          stay_awake := true
          trace := w.trace ++ [.mesh_tb_timer_set d.MESH_UNPROV_ADV_TIME,
            .rwip_prevent_sleep_set]
          log := w.log ++ [⟨442, [M_API_ENABLE, d.MESH_ERR_NO_ERROR]⟩, ⟨455, [0]⟩,
            ⟨230, [d.MESH_UNPROV_ADV_TIME]⟩] } := by
    have hm : d.MESH_UNPROV_ADV_TIME % 4294967296 = d.MESH_UNPROV_ADV_TIME :=
      Nat.mod_eq_of_lt (by simpa using hB)
    simp [after_enable, app_mesh_api_cmp_handler, M_API_ENABLE, M_API_STORAGE_LOAD, print,
      hp, app_unprov_adv_timeout_set, hT, hm, mesh_tb_timer_set, rwip_prevent_sleep_set,
      b2n]
  have hn := prov_param_calls_no_sleep p e
  rcases cfg with ⟨gp, gx, ta, ot⟩
  cases gp <;> cases ta <;>
    simp [after_enable_timeout, he, calls_since, log_since, mesh_tb_timer_expire,
      run_timer_cb, app_unprov_adv_cb_timerout, app_get_prov_param_eq, call, print,
      rwip_prevent_sleep_clear, rwip_prevent_sleep_set, app_call.is_sleep_clear,
      app_call.is_sleep_set, app_call.is_prov_param_cfm, hn.1, hn.2.1, hn.2.2]

/-- In the sample build (no `UNPROV_TIMEOUT_ADV`), from the boot state, the timer expiry
releases the stay-awake hold; in the build with `UNPROV_TIMEOUT_ADV` it leaves the hold
set. -/
theorem timeout_clears_hold_once_witness :
    (after_enable_timeout sample_defs sample_cfg sample_product sample_prov_env
        boot_world).stay_awake = false
    ∧ (after_enable_timeout sample_defs sample_cfg sample_product sample_prov_env
        boot_world).timer_armed = none
    ∧ (after_enable_timeout sample_defs timeout_adv_cfg sample_product sample_prov_env
        boot_world).stay_awake = true :=
  have h := timeout_clears_hold_once sample_defs sample_cfg sample_product sample_prov_env
    boot_world (by decide) (by decide) (by decide)
  have h2 := timeout_clears_hold_once sample_defs timeout_adv_cfg sample_product
    sample_prov_env boot_world (by decide) (by decide) (by decide)
  ⟨h.2.2.2.2.2.1, h.2.2.2.2.2.2, h2.2.2.2.2.2.1⟩

/-- C8: on a provisioning-state indication with state `M_PROV_SUCCEED`,
`app_mesh_api_prov_state_ind_handler` first calls, in this order, `m_tb_store_config(5)`,
`light_prov_complete()`, `m_tb_state_set_relay_state(1, 1)` and `mesh_tb_timer_clear` (by
`app_unprov_adv_timeout_set(0)`); none of its later calls writes the configuration or
touches the timer, so the configuration is written exactly once, and the timer is not
programmed afterwards.  For every other state the handler writes no configuration, makes
no timer call and leaves the timer as it was. -/
theorem prov_succeed_side_effects (d : mesh_defs) (cfg : build_cfg)
    (param : m_api_prov_state_ind) (w : app_world)
    (h1 : d.M_PROV_SUCCEED ≠ d.M_PROV_STARTED) (h2 : d.M_PROV_SUCCEED ≠ d.M_PROV_FAILED) :
    (param.state = d.M_PROV_SUCCEED →
      (∃ rest, calls_since w (app_mesh_api_prov_state_ind_handler d cfg param w).2
          = [.m_tb_store_config 5, .light_prov_complete, .m_tb_state_set_relay_state 1 1,
             .mesh_tb_timer_clear] ++ rest
        ∧ rest.filter app_call.is_store_config = []
        ∧ rest.filter app_call.is_timer = [])
      ∧ ((calls_since w (app_mesh_api_prov_state_ind_handler d cfg param w).2).filter
            app_call.is_store_config).length = 1
      ∧ (app_mesh_api_prov_state_ind_handler d cfg param w).2.timer_armed = none)
    ∧ (param.state ≠ d.M_PROV_SUCCEED →
      (calls_since w (app_mesh_api_prov_state_ind_handler d cfg param w).2).filter
          app_call.is_store_config = []
      ∧ (calls_since w (app_mesh_api_prov_state_ind_handler d cfg param w).2).filter
          app_call.is_timer = []
      ∧ (app_mesh_api_prov_state_ind_handler d cfg param w).2.timer_armed = w.timer_armed
      ∧ (app_mesh_api_prov_state_ind_handler d cfg param w).2.timer_upd_cb = w.timer_upd_cb
      ∧ (app_mesh_api_prov_state_ind_handler d cfg param w).2.timer_upd_period
          = w.timer_upd_period) := by
  constructor
  · intro hs
    rcases cfg with ⟨gp, gx, ta, ot⟩
    by_cases hk : w.net_key_status = d.MESH_ERR_NO_ERROR <;> cases gx <;> cases ot <;>
      simp [app_mesh_api_prov_state_ind_handler, hs, h1, h2, hk, calls_since, call, print,
        app_unprov_adv_timeout_set, mesh_tb_timer_clear, m_tb_state_set_gatt_proxy_state,
        app_call.is_store_config, app_call.is_timer]
  · intro hs
    by_cases ha : param.state = d.M_PROV_STARTED
    · simp [app_mesh_api_prov_state_ind_handler, ha, calls_since, call, print,
        app_call.is_store_config, app_call.is_timer]
    · by_cases hb : param.state = d.M_PROV_FAILED
      · have hc : ¬ d.M_PROV_FAILED = d.M_PROV_STARTED := hb ▸ ha
        simp [app_mesh_api_prov_state_ind_handler, hb, hc, calls_since, print]
      · simp [app_mesh_api_prov_state_ind_handler, hs, ha, hb, calls_since, print]

/-- In the sample build, from the boot state, a provisioning-succeeded indication writes
the configuration once and leaves the timer unprogrammed. -/
theorem prov_succeed_side_effects_witness :
    ((calls_since boot_world
        (app_mesh_api_prov_state_ind_handler sample_defs sample_cfg ⟨1, 0⟩
          boot_world).2).filter app_call.is_store_config).length = 1
    ∧ (app_mesh_api_prov_state_ind_handler sample_defs sample_cfg ⟨1, 0⟩
        boot_world).2.timer_armed = none :=
  ((prov_succeed_side_effects sample_defs sample_cfg ⟨1, 0⟩ boot_world (by decide)
    (by decide)).1 rfl).2

/-- C9, as stated, fails: from the unprovisioned boot state, after enable-complete and a
provisioning-succeeded indication, the stay-awake hold is not released. -/
theorem succeed_hold_counterexample :
    ¬ ((after_enable_succeed sample_defs sample_cfg 0 boot_world).stay_awake = false) := by
  decide

/-- C9, amended: after an enable-complete event in unprovisioned state, which sets the
stay-awake hold, a provisioning-succeeded indication cancels the advertising timer but
makes no call that clears the hold: the hold is still set when the success handler
returns. -/
theorem succeed_keeps_hold (d : mesh_defs) (cfg : build_cfg) (status : Nat) (w : app_world)
    (hT : d.MESH_UNPROV_ADV_TIME ≠ 0) (hB : d.MESH_UNPROV_ADV_TIME < 2 ^ 32)
    (hp : w.prov_state ≠ d.M_TB_STATE_PROV_STATE_PROV)
    (h1 : d.M_PROV_SUCCEED ≠ d.M_PROV_STARTED) (h2 : d.M_PROV_SUCCEED ≠ d.M_PROV_FAILED) :
    (after_enable d cfg w).stay_awake = true
    ∧ (after_enable d cfg w).timer_armed = some d.MESH_UNPROV_ADV_TIME
    ∧ (calls_since (after_enable d cfg w) (after_enable_succeed d cfg status w)).filter
        app_call.is_sleep_clear = []
    ∧ (after_enable_succeed d cfg status w).stay_awake = true
    ∧ (after_enable_succeed d cfg status w).timer_armed = none := by
  have he : after_enable d cfg w
      = { w with
          timer_upd_cb := some timer_cb.app_unprov_adv_cb_timerout
          timer_upd_period := d.MESH_UNPROV_ADV_TIME
          timer_armed := some d.MESH_UNPROV_ADV_TIME
          stay_awake := true
          trace := w.trace ++ [.mesh_tb_timer_set d.MESH_UNPROV_ADV_TIME,
            .rwip_prevent_sleep_set]
          log := w.log ++ [⟨442, [M_API_ENABLE, d.MESH_ERR_NO_ERROR]⟩, ⟨455, [0]⟩,
            ⟨230, [d.MESH_UNPROV_ADV_TIME]⟩] } := by
    have hm : d.MESH_UNPROV_ADV_TIME % 4294967296 = d.MESH_UNPROV_ADV_TIME :=
      Nat.mod_eq_of_lt (by simpa using hB)
    simp [after_enable, app_mesh_api_cmp_handler, M_API_ENABLE, M_API_STORAGE_LOAD, print,
      hp, app_unprov_adv_timeout_set, hT, hm, mesh_tb_timer_set, rwip_prevent_sleep_set,
      b2n]
  rcases cfg with ⟨gp, gx, ta, ot⟩
  by_cases hk : w.net_key_status = d.MESH_ERR_NO_ERROR <;> cases gx <;> cases ot <;>
    simp [after_enable_succeed, he, app_mesh_api_prov_state_ind_handler, h1, h2, hk,
      calls_since, call, print, app_unprov_adv_timeout_set, mesh_tb_timer_clear,
      m_tb_state_set_gatt_proxy_state, app_call.is_sleep_clear]

/-- In the sample build, from the boot state, the hold set by enable-complete is still set
after the provisioning-succeeded indication, and the timer is cancelled. -/
theorem succeed_keeps_hold_witness :
    (after_enable_succeed sample_defs sample_cfg 0 boot_world).stay_awake = true
    ∧ (after_enable_succeed sample_defs sample_cfg 0 boot_world).timer_armed = none :=
  (succeed_keeps_hold sample_defs sample_cfg 0 boot_world (by decide) (by decide)
    (by decide) (by decide) (by decide)).2.2.2

/-- C10, as stated, fails: in a build without `BLE_MESH_GATT_PROXY`, from the boot state,
where the network-key lookup succeeds, a provisioning-succeeded indication makes no call
that enables the GATT proxy service. -/
theorem succeed_proxy_counterexample :
    ¬ ((calls_since boot_world
            (app_mesh_api_prov_state_ind_handler sample_defs no_proxy_cfg ⟨1, 0⟩
              boot_world).2).filter app_call.is_proxy ≠ []
        ↔ boot_world.net_key_status = sample_defs.MESH_ERR_NO_ERROR) := by
  decide

/-- C10, amended: on a provisioning-succeeded indication, in a build with
`BLE_MESH_GATT_PROXY` and without `TEST_MESH_OTA`, the handler enables the GATT proxy
service (`m_tb_state_set_gatt_proxy_state(M_CONF_GATT_PROXY_STATE_ENABLED)` followed by
`m_api_proxy_ctrl(2)`) if and only if `m_tb_key_net_next` returns `MESH_ERR_NO_ERROR`; when
no network key is present, and in every other build, it makes no proxy call and the proxy
state is as before.  The lookup is made exactly in the builds without `TEST_MESH_OTA`.  In
every build and whatever the lookup returns, the first four calls are the configuration
write, the post-provisioning hook, the relay enabling and the timer cancellation. -/
theorem succeed_enables_proxy (d : mesh_defs) (cfg : build_cfg)
    (param : m_api_prov_state_ind) (w : app_world)
    (h1 : d.M_PROV_SUCCEED ≠ d.M_PROV_STARTED) (h2 : d.M_PROV_SUCCEED ≠ d.M_PROV_FAILED)
    (hs : param.state = d.M_PROV_SUCCEED) :
    (calls_since w (app_mesh_api_prov_state_ind_handler d cfg param w).2).filter
        app_call.is_proxy
      = (if cfg.TEST_MESH_OTA = false ∧ cfg.BLE_MESH_GATT_PROXY = true
            ∧ w.net_key_status = d.MESH_ERR_NO_ERROR then
          [.m_tb_state_set_gatt_proxy_state d.M_CONF_GATT_PROXY_STATE_ENABLED,
           .m_api_proxy_ctrl 2]
        else [])
    ∧ (app_mesh_api_prov_state_ind_handler d cfg param w).2.gatt_proxy_state
      = (if cfg.TEST_MESH_OTA = false ∧ cfg.BLE_MESH_GATT_PROXY = true
            ∧ w.net_key_status = d.MESH_ERR_NO_ERROR then
          d.M_CONF_GATT_PROXY_STATE_ENABLED
        else w.gatt_proxy_state)
    ∧ (app_call.m_tb_key_net_next
          ∈ calls_since w (app_mesh_api_prov_state_ind_handler d cfg param w).2
        ↔ cfg.TEST_MESH_OTA = false)
    ∧ (calls_since w (app_mesh_api_prov_state_ind_handler d cfg param w).2).take 4
      = [.m_tb_store_config 5, .light_prov_complete, .m_tb_state_set_relay_state 1 1,
         .mesh_tb_timer_clear]
    ∧ (app_mesh_api_prov_state_ind_handler d cfg param w).2.timer_armed = none := by
  rcases cfg with ⟨gp, gx, ta, ot⟩
  by_cases hk : w.net_key_status = d.MESH_ERR_NO_ERROR <;> cases gx <;> cases ot <;>
    simp [app_mesh_api_prov_state_ind_handler, hs, h1, h2, hk, calls_since, call, print,
      app_unprov_adv_timeout_set, mesh_tb_timer_clear, m_tb_state_set_gatt_proxy_state,
      app_call.is_proxy]

/-- In the sample build (GATT proxy compiled in), from the boot state, where the
network-key lookup succeeds, the success handler enables the proxy service. -/
theorem succeed_enables_proxy_witness :
    (calls_since boot_world
        (app_mesh_api_prov_state_ind_handler sample_defs sample_cfg ⟨1, 0⟩
          boot_world).2).filter app_call.is_proxy
      = [.m_tb_state_set_gatt_proxy_state 1, .m_api_proxy_ctrl 2] :=
  (succeed_enables_proxy sample_defs sample_cfg ⟨1, 0⟩ boot_world (by decide) (by decide)
    rfl).1

/-! ## Properties of the key-binding workflow -/

/-- The binding loop, given at least as many iterations as there are indexes left, makes
the calls and prints of every index from `i` up to the number of models, and changes
nothing but the trace and the log. -/
theorem user_models_bind_loop_trace (d : mesh_defs) (sv : stack_view) (app_key_lid : Nat) :
    ∀ (fuel i : Nat) (w : app_world), sv.nb_model - i ≤ fuel →
      user_models_bind_loop d sv app_key_lid fuel i w
        = { w with
            trace := w.trace ++ bind_calls d sv app_key_lid (sv.nb_model - i) i
            log := w.log ++ bind_log sv app_key_lid (sv.nb_model - i) i } := by
  intro fuel
  induction fuel with
  | zero =>
    intro i w h
    have h0 : sv.nb_model - i = 0 := by omega
    simp [user_models_bind_loop, h0, bind_calls, bind_log]
  | succ fuel ih =>
    intro i w h
    by_cases hi : i < sv.nb_model
    · have hn : sv.nb_model - i = (sv.nb_model - (i + 1)) + 1 := by omega
      by_cases hb : sv.key_model_bind app_key_lid i = d.MESH_ERR_NO_ERROR
      · have hstep : user_models_bind_loop d sv app_key_lid (fuel + 1) i w
            = user_models_bind_loop d sv app_key_lid fuel (i + 1)
                (call (.m_tb_mio_bind i)
                  (print 147 [i, sv.key_model_bind app_key_lid i]
                    (call (.m_tb_key_model_bind app_key_lid i) w))) := by
          simp [user_models_bind_loop, hi, hb]
        rw [hstep, ih (i + 1) _ (by omega), hn]
        simp [call, print, bind_calls, bind_calls_at, bind_log, hb]
      · have hstep : user_models_bind_loop d sv app_key_lid (fuel + 1) i w
            = user_models_bind_loop d sv app_key_lid fuel (i + 1)
                (print 147 [i, sv.key_model_bind app_key_lid i]
                  (call (.m_tb_key_model_bind app_key_lid i) w)) := by
          simp [user_models_bind_loop, hi, hb]
        rw [hstep, ih (i + 1) _ (by omega), hn]
        simp [call, print, bind_calls, bind_calls_at, bind_log, hb]
    · have h0 : sv.nb_model - i = 0 := by omega
      simp [user_models_bind_loop, hi, h0, bind_calls, bind_log]

/-- The key-bind attempts among the calls of `n` iterations from index `i` on are one
attempt per index, in increasing order. -/
theorem bind_calls_attempts (d : mesh_defs) (sv : stack_view) (app_key_lid : Nat) :
    ∀ (n i : Nat), (bind_calls d sv app_key_lid n i).filter app_call.is_key_model_bind
      = (List.range' i n).map (fun j => app_call.m_tb_key_model_bind app_key_lid j) := by
  intro n
  induction n with
  | zero => intro i; simp [bind_calls]
  | succ n ih =>
    intro i
    by_cases hb : sv.key_model_bind app_key_lid i = d.MESH_ERR_NO_ERROR <;>
      simp [bind_calls, bind_calls_at, hb, ih, List.range'_succ, app_call.is_key_model_bind]

/-- The function `user_models_bind_app_key` changes nothing but the trace and the log, to
which it appends its calls and prints. -/
theorem user_models_bind_app_key_eq (d : mesh_defs) (sv : stack_view) (w : app_world) :
    user_models_bind_app_key d sv w
      = { w with
          trace := w.trace ++ app_key_bind_calls d sv
          log := w.log ++ app_key_bind_log d sv } := by
  by_cases hfind : sv.app_key_find.1 = d.MESH_ERR_NO_ERROR
  · have hu : user_models_bind_app_key d sv w
        = user_models_bind_loop d sv sv.app_key_find.2 sv.nb_model 2
            (print 140 [sv.app_key_find.2, sv.app_key_find.1]
              (call .m_tb_key_app_find w)) := by
      unfold user_models_bind_app_key
      exact if_pos hfind
    rw [hu, user_models_bind_loop_trace d sv sv.app_key_find.2 sv.nb_model 2 _ (by omega)]
    simp [call, print, app_key_bind_calls, app_key_bind_log, hfind]
  · have hu : user_models_bind_app_key d sv w
        = print 140 [sv.app_key_find.2, sv.app_key_find.1]
            (call .m_tb_key_app_find w) := by
      unfold user_models_bind_app_key
      exact if_neg hfind
    rw [hu]
    simp [call, print, app_key_bind_calls, app_key_bind_log, hfind]

/-- The calls of `user_models_bind_app_key` when the application-key lookup succeeds: the
lookup, then the calls of the binding loop for the indexes 2 up to the number of models. -/
theorem user_models_bind_app_key_calls (d : mesh_defs) (sv : stack_view) (w : app_world)
    (hfind : sv.app_key_find.1 = d.MESH_ERR_NO_ERROR) :
    calls_since w (user_models_bind_app_key d sv w)
      = .m_tb_key_app_find :: bind_calls d sv sv.app_key_find.2 (sv.nb_model - 2) 2 := by
  rw [user_models_bind_app_key_eq]
  simp [calls_since, app_key_bind_calls, hfind]

/-- The binding loop never switches the advertising content. -/
theorem bind_calls_no_gma_adv (d : mesh_defs) (sv : stack_view) (app_key_lid : Nat) :
    ∀ (n i : Nat), (bind_calls d sv app_key_lid n i).filter app_call.is_gma_adv = [] := by
  intro n
  induction n with
  | zero => intro i; simp [bind_calls]
  | succ n ih =>
    intro i
    by_cases hb : sv.key_model_bind app_key_lid i = d.MESH_ERR_NO_ERROR <;>
      simp [bind_calls, bind_calls_at, hb, ih, app_call.is_gma_adv]

/-- The function `user_models_bind_app_key` never switches the advertising content. -/
theorem app_key_bind_calls_no_gma_adv (d : mesh_defs) (sv : stack_view) :
    (app_key_bind_calls d sv).filter app_call.is_gma_adv = [] := by
  by_cases hfind : sv.app_key_find.1 = d.MESH_ERR_NO_ERROR <;>
    simp [app_key_bind_calls, hfind, app_call.is_gma_adv, bind_calls_no_gma_adv]

/-- C11: when the application-key lookup succeeds, the key-bind attempts of
`user_models_bind_app_key` are exactly one `m_tb_key_model_bind(app_key_lid, i)` for each
model local index `i` from 2 up to the number of registered models minus one, in
increasing order; the sequence of attempts is the same whatever statuses the individual
attempts return. -/
theorem bind_attempts_ignore_failures (d : mesh_defs) (sv : stack_view) (w : app_world)
    (hfind : sv.app_key_find.1 = d.MESH_ERR_NO_ERROR) :
    (calls_since w (user_models_bind_app_key d sv w)).filter app_call.is_key_model_bind
        = (List.range' 2 (sv.nb_model - 2)).map
            (fun i => app_call.m_tb_key_model_bind sv.app_key_find.2 i)
    ∧ ∀ results : Nat → Nat → Nat,
        (calls_since w
            (user_models_bind_app_key d { sv with key_model_bind := results } w)).filter
            app_call.is_key_model_bind
          = (calls_since w (user_models_bind_app_key d sv w)).filter
              app_call.is_key_model_bind := by
  have key : ∀ sv' : stack_view, sv'.app_key_find.1 = d.MESH_ERR_NO_ERROR →
      (calls_since w (user_models_bind_app_key d sv' w)).filter app_call.is_key_model_bind
        = (List.range' 2 (sv'.nb_model - 2)).map
            (fun i => app_call.m_tb_key_model_bind sv'.app_key_find.2 i) := by
    intro sv' h
    rw [user_models_bind_app_key_calls d sv' w h]
    simp [app_call.is_key_model_bind, bind_calls_attempts]
  refine ⟨key sv hfind, ?_⟩
  intro results
  rw [key sv hfind, key { sv with key_model_bind := results } hfind]

/-- With six registered models and a key binding that fails for the model local index 3,
the attempts are still made for the indexes 2, 3, 4 and 5. -/
theorem bind_attempts_ignore_failures_witness :
    (calls_since boot_world
        (user_models_bind_app_key sample_defs sample_stack boot_world)).filter
        app_call.is_key_model_bind
      = [.m_tb_key_model_bind 1 2, .m_tb_key_model_bind 1 3, .m_tb_key_model_bind 1 4,
         .m_tb_key_model_bind 1 5] :=
  (bind_attempts_ignore_failures sample_defs sample_stack boot_world rfl).1

/-! ## Properties of the timer cancellation and of the command-complete router -/

/-- C12: `app_unprov_adv_timeout_set(0)` is idempotent and never releases the stay-awake
hold.  From every state, calling it twice in a row leaves, apart from the record of calls
and prints, the same state as calling it once, with the timer not programmed; each call
makes the single call `mesh_tb_timer_clear`, so neither sets or clears the stay-awake
hold, which keeps its value. -/
theorem timeout_clear_idempotent (w : app_world) :
    forget_history (app_unprov_adv_timeout_set 0 (app_unprov_adv_timeout_set 0 w))
        = forget_history (app_unprov_adv_timeout_set 0 w)
    ∧ (app_unprov_adv_timeout_set 0 w).timer_armed = none
    ∧ (app_unprov_adv_timeout_set 0 (app_unprov_adv_timeout_set 0 w)).timer_armed = none
    ∧ (app_unprov_adv_timeout_set 0 w).stay_awake = w.stay_awake
    ∧ (app_unprov_adv_timeout_set 0 (app_unprov_adv_timeout_set 0 w)).stay_awake
        = w.stay_awake
    ∧ calls_since w (app_unprov_adv_timeout_set 0 w) = [.mesh_tb_timer_clear]
    ∧ calls_since (app_unprov_adv_timeout_set 0 w)
          (app_unprov_adv_timeout_set 0 (app_unprov_adv_timeout_set 0 w))
        = [.mesh_tb_timer_clear] := by
  simp [app_unprov_adv_timeout_set, mesh_tb_timer_clear, print, forget_history, calls_since]

/-- C15: on a disable-complete event (`cmd_code = M_API_DISABLE`),
`app_mesh_api_cmp_handler` calls `m_tb_store_nvs_after_stop_scan()` and then
`app_mesh_enable()`, and nothing else, if no maintenance OTA is ongoing and the
`Flag_InGmaState` bit of `flag_gma` is clear; otherwise it makes no call at all.  In both
cases it returns `KE_MSG_CONSUMED`. -/
theorem disable_complete_stores_then_enables (d : mesh_defs) (cfg : build_cfg)
    (status : Nat) (w : app_world) :
    (app_mesh_api_cmp_handler d cfg ⟨M_API_DISABLE, status⟩ w).1
        = ke_msg_status.KE_MSG_CONSUMED
    ∧ calls_since w (app_mesh_api_cmp_handler d cfg ⟨M_API_DISABLE, status⟩ w).2
        = (if w.gma_ota_ongoing = false ∧ w.flag_gma &&& d.Flag_InGmaState = 0 then
            [.m_tb_store_nvs_after_stop_scan, .app_mesh_enable]
          else []) := by
  by_cases h1 : w.gma_ota_ongoing = false <;>
    by_cases h2 : w.flag_gma &&& d.Flag_InGmaState = 0 <;>
    simp [app_mesh_api_cmp_handler, M_API_DISABLE, M_API_STORAGE_LOAD, M_API_ENABLE,
      calls_since, call, print, h1, h2]

/-! ## Properties of the maintenance-mode trigger -/

/-- The key indication handler never writes `quick_onoff_count`, and leaves the
provisioning state as it is. -/
theorem key_ind_handler_frame (d : mesh_defs) (cfg : build_cfg) (p : product_cfg)
    (sv : stack_view) (msgid : Nat) (param : m_tb_key) (w : app_world) :
    (app_mesh_msg_key_ind_handler d cfg p sv msgid param w).2.quick_onoff_count
        = w.quick_onoff_count
    ∧ (app_mesh_msg_key_ind_handler d cfg p sv msgid param w).2.prov_state
        = w.prov_state := by
  by_cases h1 : param.key_type = d.M_TB_KEY_DEVICE
  · simp [app_mesh_msg_key_ind_handler, h1, print]
  · by_cases h2 : param.key_type = d.M_TB_KEY_NETWORK
    · have h3 : ¬ d.M_TB_KEY_NETWORK = d.M_TB_KEY_DEVICE := h2 ▸ h1
      simp [app_mesh_msg_key_ind_handler, h2, h3, print]
    · by_cases hk : param.key_type = d.M_TB_KEY_APPLICATION
      · have h3 : ¬ d.M_TB_KEY_APPLICATION = d.M_TB_KEY_DEVICE := hk ▸ h1
        have h4 : ¬ d.M_TB_KEY_APPLICATION = d.M_TB_KEY_NETWORK := hk ▸ h2
        rcases p with ⟨ali, gma, m1, m2, m3, m4, m5⟩
        rcases cfg with ⟨gp, gx, ta, ot⟩
        by_cases hq : w.quick_onoff_count = d.StartGmaOtaAdv_Cnt <;>
          by_cases hp : w.prov_state = d.M_TB_STATE_PROV_STATE_PROV <;>
          cases ali <;> cases ot <;> cases gma <;>
          simp [app_mesh_msg_key_ind_handler, h3, h4, hk, hq, hp,
            user_models_bind_app_key_eq, user_models_subs_group_addr,
            user_models_publish_set, call, print]
      · simp [app_mesh_msg_key_ind_handler, h1, h2, hk, print]

/-- In a product with `ALI_MESH` and `GMA_SUPPORT` built without `TEST_MESH_OTA`, an
application-key indication on a provisioned node whose `quick_onoff_count` is at the
threshold enters maintenance mode. -/
theorem key_ind_handler_enters (d : mesh_defs) (cfg : build_cfg) (p : product_cfg)
    (sv : stack_view) (msgid : Nat) (param : m_tb_key) (w : app_world)
    (hdev : d.M_TB_KEY_APPLICATION ≠ d.M_TB_KEY_DEVICE)
    (hnet : d.M_TB_KEY_APPLICATION ≠ d.M_TB_KEY_NETWORK)
    (ha : p.ALI_MESH = true) (ht : cfg.TEST_MESH_OTA = false) (hg : p.GMA_SUPPORT = true)
    (hk : param.key_type = d.M_TB_KEY_APPLICATION)
    (hq : w.quick_onoff_count = d.StartGmaOtaAdv_Cnt)
    (hp : w.prov_state = d.M_TB_STATE_PROV_STATE_PROV) :
    (app_mesh_msg_key_ind_handler d cfg p sv msgid param w).2.flag_gma
        = (w.flag_gma ||| d.Flag_InGmaState) % 256
    ∧ (app_mesh_msg_key_ind_handler d cfg p sv msgid param w).2.inGmaOtaTime
        = d.InGmaOtaCnt % 256
    ∧ (calls_since w (app_mesh_msg_key_ind_handler d cfg p sv msgid param w).2).filter
        app_call.is_gma_adv = [.CloseMeshAdv_OpenGmaOtaAdv] := by
  simp [app_mesh_msg_key_ind_handler, ha, ht, hg, hk, hq, hp, hdev, hnet,
    user_models_bind_app_key_eq, user_models_subs_group_addr, user_models_publish_set,
    calls_since, call, print, app_call.is_gma_adv, app_key_bind_calls_no_gma_adv]

/-- C16, as stated, fails: in a product without `GMA_SUPPORT`, an application-key
indication that finds `quick_onoff_count` at the threshold on a provisioned node does not
enter maintenance mode. -/
theorem key_ind_maintenance_counterexample :
    ¬ (((app_mesh_msg_key_ind_handler sample_defs sample_cfg no_gma_product sample_stack 0
            sample_app_key threshold_world).2.flag_gma &&& sample_defs.Flag_InGmaState
            = sample_defs.Flag_InGmaState
          ∧ (app_mesh_msg_key_ind_handler sample_defs sample_cfg no_gma_product sample_stack 0
            sample_app_key threshold_world).2.inGmaOtaTime = sample_defs.InGmaOtaCnt
          ∧ (calls_since threshold_world
              (app_mesh_msg_key_ind_handler sample_defs sample_cfg no_gma_product
                sample_stack 0 sample_app_key threshold_world).2).filter
              app_call.is_gma_adv ≠ [])
        ↔ (sample_app_key.key_type = sample_defs.M_TB_KEY_APPLICATION
          ∧ threshold_world.quick_onoff_count = sample_defs.StartGmaOtaAdv_Cnt
          ∧ threshold_world.prov_state = sample_defs.M_TB_STATE_PROV_STATE_PROV)) := by
  decide

/-- C16, amended: in a product with `ALI_MESH` and `GMA_SUPPORT` built without
`TEST_MESH_OTA`, `app_mesh_msg_key_ind_handler` enters maintenance mode (ors
`Flag_InGmaState` into the 8-bit `flag_gma`, sets the 8-bit `inGmaOtaTime` to
`InGmaOtaCnt` and calls `CloseMeshAdv_OpenGmaOtaAdv` once) if the key is an application
key, `quick_onoff_count` equals `StartGmaOtaAdv_Cnt` and the node is provisioned.  In every
other case, and in every other build, `flag_gma` and `inGmaOtaTime` are left unchanged and
the advertising content is not switched. -/
theorem key_ind_enters_maintenance (d : mesh_defs) (cfg : build_cfg) (p : product_cfg)
    (sv : stack_view) (msgid : Nat) (param : m_tb_key) (w : app_world)
    (hdev : d.M_TB_KEY_APPLICATION ≠ d.M_TB_KEY_DEVICE)
    (hnet : d.M_TB_KEY_APPLICATION ≠ d.M_TB_KEY_NETWORK) :
    ((p.ALI_MESH = true ∧ cfg.TEST_MESH_OTA = false ∧ p.GMA_SUPPORT = true
        ∧ param.key_type = d.M_TB_KEY_APPLICATION
        ∧ w.quick_onoff_count = d.StartGmaOtaAdv_Cnt
        ∧ w.prov_state = d.M_TB_STATE_PROV_STATE_PROV) →
      (app_mesh_msg_key_ind_handler d cfg p sv msgid param w).2.flag_gma
          = (w.flag_gma ||| d.Flag_InGmaState) % 256
      ∧ (app_mesh_msg_key_ind_handler d cfg p sv msgid param w).2.inGmaOtaTime
          = d.InGmaOtaCnt % 256
      ∧ (calls_since w (app_mesh_msg_key_ind_handler d cfg p sv msgid param w).2).filter
          app_call.is_gma_adv = [.CloseMeshAdv_OpenGmaOtaAdv])
    ∧ (¬ (p.ALI_MESH = true ∧ cfg.TEST_MESH_OTA = false ∧ p.GMA_SUPPORT = true
        ∧ param.key_type = d.M_TB_KEY_APPLICATION
        ∧ w.quick_onoff_count = d.StartGmaOtaAdv_Cnt
        ∧ w.prov_state = d.M_TB_STATE_PROV_STATE_PROV) →
      (app_mesh_msg_key_ind_handler d cfg p sv msgid param w).2.flag_gma = w.flag_gma
      ∧ (app_mesh_msg_key_ind_handler d cfg p sv msgid param w).2.inGmaOtaTime
          = w.inGmaOtaTime
      ∧ (calls_since w (app_mesh_msg_key_ind_handler d cfg p sv msgid param w).2).filter
          app_call.is_gma_adv = []) := by
  constructor
  · rintro ⟨ha, ht, hg, hk, hq, hp⟩
    simp [app_mesh_msg_key_ind_handler, ha, ht, hg, hk, hq, hp, hdev, hnet,
      user_models_bind_app_key_eq, user_models_subs_group_addr, user_models_publish_set,
      calls_since, call, print, app_call.is_gma_adv, app_key_bind_calls_no_gma_adv]
  · intro hc
    by_cases hk : param.key_type = d.M_TB_KEY_APPLICATION
    · rcases p with ⟨ali, gma, m1, m2, m3, m4, m5⟩
      rcases cfg with ⟨gp, gx, ta, ot⟩
      by_cases hq : w.quick_onoff_count = d.StartGmaOtaAdv_Cnt <;>
        by_cases hp : w.prov_state = d.M_TB_STATE_PROV_STATE_PROV <;>
        cases ali <;> cases ot <;> cases gma <;>
        simp [app_mesh_msg_key_ind_handler, hk, hq, hp, hdev, hnet,
          user_models_bind_app_key_eq, user_models_subs_group_addr,
          user_models_publish_set, calls_since, call, print, app_call.is_gma_adv,
          app_key_bind_calls_no_gma_adv] at hc ⊢
    · by_cases h1 : param.key_type = d.M_TB_KEY_DEVICE
      · simp [app_mesh_msg_key_ind_handler, h1, calls_since, print]
      · by_cases h2 : param.key_type = d.M_TB_KEY_NETWORK
        · have h3 : ¬ d.M_TB_KEY_NETWORK = d.M_TB_KEY_DEVICE := h2 ▸ h1
          simp [app_mesh_msg_key_ind_handler, h2, h3, calls_since, print]
        · simp [app_mesh_msg_key_ind_handler, hk, h1, h2, calls_since, print]

/-- In the sample product, on a provisioned node with the counter at the threshold, an
application-key indication sets the maintenance flag and arms the maintenance window. -/
theorem key_ind_enters_maintenance_witness :
    (app_mesh_msg_key_ind_handler sample_defs sample_cfg sample_product sample_stack 0
        sample_app_key threshold_world).2.flag_gma = 1
    ∧ (app_mesh_msg_key_ind_handler sample_defs sample_cfg sample_product sample_stack 0
        sample_app_key threshold_world).2.inGmaOtaTime = 60 :=
  have h := (key_ind_enters_maintenance sample_defs sample_cfg sample_product sample_stack
    0 sample_app_key threshold_world (by decide) (by decide)).1
    ⟨rfl, rfl, rfl, rfl, rfl, rfl⟩
  ⟨h.1, h.2.1⟩

/-- C17, as stated, fails: in the sample product, after an application-key indication has
entered maintenance mode, `quick_onoff_count` is not 0 and a second application-key
indication enters maintenance mode again. -/
theorem maintenance_one_shot_counterexample :
    ¬ ((app_mesh_msg_key_ind_handler sample_defs sample_cfg sample_product sample_stack 0
            sample_app_key threshold_world).2.quick_onoff_count = 0
        ∧ (calls_since
            (app_mesh_msg_key_ind_handler sample_defs sample_cfg sample_product sample_stack
              0 sample_app_key threshold_world).2
            (app_mesh_msg_key_ind_handler sample_defs sample_cfg sample_product sample_stack
              0 sample_app_key
              (app_mesh_msg_key_ind_handler sample_defs sample_cfg sample_product
                sample_stack 0 sample_app_key threshold_world).2).2).filter
            app_call.is_gma_adv = []) := by
  decide

/-- C17, amended: the node-reset handler sets `quick_onoff_count` to 0 before it calls
`light_state_nv_store` for the power-on count, which therefore sees the value 0.  The key
indication handler never writes `quick_onoff_count`.  So, in a product with `ALI_MESH` and
`GMA_SUPPORT` built without `TEST_MESH_OTA`, the entry into maintenance mode is not
one-shot: a second application-key indication directly after one that found the counter at
the threshold on a provisioned node enters maintenance mode again, switching the
advertising content and setting `inGmaOtaTime` once more. -/
theorem maintenance_entry_repeats (d : mesh_defs) (cfg : build_cfg) (p : product_cfg)
    (sv : stack_view) (msgid msgid2 : Nat) (param param2 : m_tb_key) (w : app_world)
    (hdev : d.M_TB_KEY_APPLICATION ≠ d.M_TB_KEY_DEVICE)
    (hnet : d.M_TB_KEY_APPLICATION ≠ d.M_TB_KEY_NETWORK) :
    ((app_mesh_msg_node_reset_handler d msgid w).2.quick_onoff_count = 0
      ∧ calls_since w (app_mesh_msg_node_reset_handler d msgid w).2
          = [.m_tb_store_config 0, .light_unBind_complete,
             .light_state_nv_store d.FLASH_LIGHT_PARAM_TYPE_POWER_ON_COUNT 0,
             .wdt_reset 0x3ff])
    ∧ (app_mesh_msg_key_ind_handler d cfg p sv msgid param w).2.quick_onoff_count
        = w.quick_onoff_count
    ∧ (p.ALI_MESH = true → cfg.TEST_MESH_OTA = false → p.GMA_SUPPORT = true →
        param.key_type = d.M_TB_KEY_APPLICATION →
        param2.key_type = d.M_TB_KEY_APPLICATION →
        w.quick_onoff_count = d.StartGmaOtaAdv_Cnt →
        w.prov_state = d.M_TB_STATE_PROV_STATE_PROV →
        (calls_since w (app_mesh_msg_key_ind_handler d cfg p sv msgid param w).2).filter
            app_call.is_gma_adv = [.CloseMeshAdv_OpenGmaOtaAdv]
        ∧ (calls_since (app_mesh_msg_key_ind_handler d cfg p sv msgid param w).2
            (app_mesh_msg_key_ind_handler d cfg p sv msgid2 param2
              (app_mesh_msg_key_ind_handler d cfg p sv msgid param w).2).2).filter
            app_call.is_gma_adv = [.CloseMeshAdv_OpenGmaOtaAdv]
        ∧ (app_mesh_msg_key_ind_handler d cfg p sv msgid2 param2
            (app_mesh_msg_key_ind_handler d cfg p sv msgid param w).2).2.inGmaOtaTime
            = d.InGmaOtaCnt % 256) := by
  refine ⟨?_, (key_ind_handler_frame d cfg p sv msgid param w).1, ?_⟩
  · simp [app_mesh_msg_node_reset_handler, calls_since, call, print]
  · intro ha ht hg hk hk2 hq hp
    have hf := key_ind_handler_frame d cfg p sv msgid param w
    have h1 := key_ind_handler_enters d cfg p sv msgid param w hdev hnet ha ht hg hk hq hp
    have h2 := key_ind_handler_enters d cfg p sv msgid2 param2
      (app_mesh_msg_key_ind_handler d cfg p sv msgid param w).2 hdev hnet ha ht hg hk2
      (hf.1.trans hq) (hf.2.trans hp)
    exact ⟨h1.2.2, h2.2.2, h2.2.1⟩

/-- In the sample product, a second application-key indication right after the entry
switches the advertising content again. -/
theorem maintenance_entry_repeats_witness :
    (calls_since
        (app_mesh_msg_key_ind_handler sample_defs sample_cfg sample_product sample_stack 0
          sample_app_key threshold_world).2
        (app_mesh_msg_key_ind_handler sample_defs sample_cfg sample_product sample_stack 1
          sample_app_key
          (app_mesh_msg_key_ind_handler sample_defs sample_cfg sample_product sample_stack 0
            sample_app_key threshold_world).2).2).filter app_call.is_gma_adv
      = [.CloseMeshAdv_OpenGmaOtaAdv] :=
  ((maintenance_entry_repeats sample_defs sample_cfg sample_product sample_stack 0 1
    sample_app_key sample_app_key threshold_world (by decide) (by decide)).2.2
    rfl rfl rfl rfl rfl rfl rfl).2.1

/-! ## Properties of the authentication-data exchange -/

/-- Overwriting sixteen bytes by sixteen bytes leaves the new bytes. -/
theorem write16_eq (dst src : List Nat) (hd : dst.length = 16) (hs : src.length = 16) :
    write16 dst src = src := by
  simp [write16, List.take_of_length_le (le_of_eq hs), List.drop_of_length_le (le_of_eq hd)]

/-- On a message of sixteen bytes, the conditionally compiled assignments leave the
build-time default secret. -/
theorem builtin_auth_data_eq (cfg : build_cfg) (p : product_cfg) (alloc : List Nat)
    (ha : alloc.length = 16) :
    builtin_auth_data cfg p alloc = default_auth_data cfg p alloc
    ∧ (default_auth_data cfg p alloc).length = 16 := by
  rcases p with ⟨ali, gma, m1, m2, m3, m4, m5⟩
  rcases cfg with ⟨gp, gx, ta, ot⟩
  cases ot <;> cases m1 <;> cases m2 <;> cases m3 <;> cases m4 <;> cases m5 <;>
    simp [builtin_auth_data, default_auth_data, write16_eq, ha, auth_value,
      auth_data_MAC78da07bcd71b, auth_data_MAC78da07bcd71c, auth_data_MAC78da07bcd71d,
      auth_data_MACf8a76324a49e, auth_data_MACf8a76324a49f]

/-- The printing loop appends one line per index to the log and changes nothing else. -/
theorem print_auth_data_eq (auth_data : List Nat) (w : app_world) :
    print_auth_data auth_data w
      = { w with
          log := w.log ++ (List.range 16).map
            (fun i => (⟨598, [i, auth_data.getD i 0]⟩ : log_entry)) } := by
  have key : ∀ (l : List Nat) (w : app_world),
      l.foldl (fun w i => print 598 [i, auth_data.getD i 0] w) w
        = { w with
            log := w.log ++ l.map (fun i => (⟨598, [i, auth_data.getD i 0]⟩ : log_entry)) } := by
    intro l
    induction l with
    | nil => intro w; simp
    | cons a l ih =>
      intro w
      rw [List.foldl_cons, ih]
      simp [print]
  exact key (List.range 16) w

/-- A list of sixteen bytes is recovered from its bytes at the indexes 0 to 15. -/
theorem range_map_getD (l : List Nat) (hl : l.length = 16) :
    (List.range 16).map (fun i => l.getD i 0) = l := by
  apply List.ext_getElem
  · simp [hl]
  · intro i h1 h2
    simp [List.getD_eq_getElem?_getD, List.getElem?_eq_getElem h2]

/-- What the authentication handler does, when the allocated message and the per-device
secret have sixteen bytes each: it looks up the secret, prints its two opening lines and
one line per byte of the chosen authentication data, and sends the confirmation. -/
theorem auth_handler_eq (cfg : build_cfg) (p : product_cfg) (e : auth_env)
    (param : m_api_prov_auth_data_req_ind) (w : app_world)
    (ha : e.alloc_auth_data.length = 16) (hs : e.read_ali_secret_key.2.length = 16) :
    (app_mesh_api_prov_auth_data_req_ind_handler cfg p e param w).2
      = { w with
          trace := w.trace ++ (secret_lookup_calls p e
            ++ [.ke_msg_send_prov_auth_data_cfm 1 param.auth_size
                  (chosen_auth_data cfg p e)])
          log := w.log ++ ([⟨523, []⟩,
              ⟨524, [param.auth_method, param.auth_action, param.auth_size]⟩]
            ++ (List.range 16).map
                (fun i => (⟨598, [i, (chosen_auth_data cfg p e).getD i 0]⟩ : log_entry))) } := by
  have hd := builtin_auth_data_eq cfg p e.alloc_auth_data ha
  by_cases h1 : p.ALI_MESH = true <;> by_cases h2 : e.contains_ali_data = true <;>
    by_cases h3 : e.read_ali_secret_key.1 = true <;>
    simp [app_mesh_api_prov_auth_data_req_ind_handler, print_auth_data_eq, hd.1, hd.2, hs,
      write16_eq, chosen_auth_data, secret_lookup_calls, call, print, h1, h2, h3]

/-- The chosen authentication data has sixteen bytes. -/
theorem chosen_auth_data_length (cfg : build_cfg) (p : product_cfg) (e : auth_env)
    (ha : e.alloc_auth_data.length = 16) (hs : e.read_ali_secret_key.2.length = 16) :
    (chosen_auth_data cfg p e).length = 16 := by
  have hd := builtin_auth_data_eq cfg p e.alloc_auth_data ha
  unfold chosen_auth_data
  split_ifs
  · exact hs
  · exact hd.2

/-- The lookup of the secret sends no confirmation. -/
theorem secret_lookup_calls_no_cfm (p : product_cfg) (e : auth_env) :
    (secret_lookup_calls p e).filter app_call.is_auth_cfm = [] := by
  by_cases h1 : p.ALI_MESH = true <;> by_cases h2 : e.contains_ali_data = true <;>
    simp [secret_lookup_calls, h1, h2, app_call.is_auth_cfm]

/-- The bytes shown by the handler's log are the chosen authentication data. -/
theorem auth_handler_logged (cfg : build_cfg) (p : product_cfg) (e : auth_env)
    (param : m_api_prov_auth_data_req_ind) (w : app_world)
    (ha : e.alloc_auth_data.length = 16) (hs : e.read_ali_secret_key.2.length = 16) :
    logged_auth_data
        (log_since w (app_mesh_api_prov_auth_data_req_ind_handler cfg p e param w).2)
      = chosen_auth_data cfg p e := by
  rw [auth_handler_eq cfg p e param w ha hs]
  have hl := range_map_getD (chosen_auth_data cfg p e)
    (chosen_auth_data_length cfg p e ha hs)
  simp only [log_since, List.drop_left, logged_auth_data]
  simp [List.filter_map, List.map_map, Function.comp_def]
  simpa using hl

/-- C18, as stated, fails: in a product without `ALI_MESH`, with a per-device secret
present and readable, the confirmation does not carry that secret. -/
theorem auth_secret_counterexample :
    ¬ ((calls_since boot_world
          (app_mesh_api_prov_auth_data_req_ind_handler sample_cfg no_ali_product
            (auth_env_with sample_secret) sample_auth_req boot_world).2).filter
          app_call.is_auth_cfm
        = [.ke_msg_send_prov_auth_data_cfm 1 sample_auth_req.auth_size sample_secret]) := by
  decide

/-- C18, amended: for every authentication-data request,
`app_mesh_api_prov_auth_data_req_ind_handler` sends exactly one confirmation, with
`accept = 1` and the request's `auth_size`.  In a product with `ALI_MESH`, its 16-byte
`auth_data` is the per-device secret whenever user data is present and the secret read
succeeds, and the build-time default otherwise; in a product without `ALI_MESH` it is
always the build-time default.  The build-time default is the value compiled in with
`TEST_MESH_OTA` or with the `MAC...` switch that is set, and the bytes of the freshly
allocated message when no such switch is set. -/
theorem auth_cfm_secret_or_default (cfg : build_cfg) (p : product_cfg) (e : auth_env)
    (param : m_api_prov_auth_data_req_ind) (w : app_world)
    (ha : e.alloc_auth_data.length = 16) (hs : e.read_ali_secret_key.2.length = 16) :
    (calls_since w
        (app_mesh_api_prov_auth_data_req_ind_handler cfg p e param w).2).filter
        app_call.is_auth_cfm
      = [.ke_msg_send_prov_auth_data_cfm 1 param.auth_size
          (if p.ALI_MESH = true ∧ e.contains_ali_data = true
              ∧ e.read_ali_secret_key.1 = true then
            e.read_ali_secret_key.2
          else default_auth_data cfg p e.alloc_auth_data)]
    ∧ (if p.ALI_MESH = true ∧ e.contains_ali_data = true
          ∧ e.read_ali_secret_key.1 = true then
        e.read_ali_secret_key.2
      else default_auth_data cfg p e.alloc_auth_data).length = 16 := by
  refine ⟨?_, chosen_auth_data_length cfg p e ha hs⟩
  rw [auth_handler_eq cfg p e param w ha hs]
  simp [calls_since, secret_lookup_calls_no_cfm, app_call.is_auth_cfm, chosen_auth_data]

/-- In the sample product, with the sample secret present and readable, the confirmation
carries the sample secret. -/
theorem auth_cfm_secret_or_default_witness :
    (calls_since boot_world
        (app_mesh_api_prov_auth_data_req_ind_handler sample_cfg sample_product
          (auth_env_with sample_secret) sample_auth_req boot_world).2).filter
        app_call.is_auth_cfm
      = [.ke_msg_send_prov_auth_data_cfm 1 16 sample_secret] :=
  (auth_cfm_secret_or_default sample_cfg sample_product (auth_env_with sample_secret)
    sample_auth_req boot_world rfl rfl).1

/-- C19, as stated, fails: in the sample product, two runs of the handler that differ only
in the per-device secret (in its last byte) do not produce the same log. -/
theorem auth_log_counterexample :
    ¬ (log_since boot_world
          (app_mesh_api_prov_auth_data_req_ind_handler sample_cfg sample_product
            (auth_env_with sample_secret) sample_auth_req boot_world).2
        = log_since boot_world
          (app_mesh_api_prov_auth_data_req_ind_handler sample_cfg sample_product
            (auth_env_with other_secret) sample_auth_req boot_world).2) := by
  decide

/-- C19, amended: the provisioning authentication secret is logged in full.  The sixteen
lines printed by the loop at app_mesh.c:596-599 show exactly the sixteen bytes of
`auth_data` that the confirmation carries; hence, in a product with `ALI_MESH` and with the
per-device secret present and readable, two runs whose logs are equal used the same
secret, that is, two runs that differ in the secret produce different logs.  The function
`user_data_read_ali_secret_froward_key` prints the key it reads as well. -/
theorem auth_secret_is_logged (cfg : build_cfg) (p : product_cfg) (e : auth_env)
    (param : m_api_prov_auth_data_req_ind) (w : app_world)
    (ha : e.alloc_auth_data.length = 16) (hs : e.read_ali_secret_key.2.length = 16) :
    (calls_since w
        (app_mesh_api_prov_auth_data_req_ind_handler cfg p e param w).2).filter
        app_call.is_auth_cfm
      = [.ke_msg_send_prov_auth_data_cfm 1 param.auth_size
          (logged_auth_data
            (log_since w (app_mesh_api_prov_auth_data_req_ind_handler cfg p e param w).2))]
    ∧ (∀ other : List Nat, other.length = 16 → p.ALI_MESH = true →
        e.contains_ali_data = true → e.read_ali_secret_key.1 = true →
        log_since w
            (app_mesh_api_prov_auth_data_req_ind_handler cfg p
              { e with read_ali_secret_key := (true, other) } param w).2
          = log_since w (app_mesh_api_prov_auth_data_req_ind_handler cfg p e param w).2 →
        other = e.read_ali_secret_key.2)
    ∧ (∀ flash_secret : List Nat,
        (user_data_read_ali_secret_froward_key flash_secret w).2.1 = flash_secret
        ∧ log_since w (user_data_read_ali_secret_froward_key flash_secret w).2.2
          = [⟨794, flash_secret⟩]) := by
  refine ⟨?_, ?_, ?_⟩
  · rw [auth_handler_logged cfg p e param w ha hs, auth_handler_eq cfg p e param w ha hs]
    simp [calls_since, secret_lookup_calls_no_cfm, app_call.is_auth_cfm]
  · intro other ho h1 h2 h3 hlog
    have ha2 : ({ e with read_ali_secret_key := (true, other) } : auth_env).alloc_auth_data.length
        = 16 := ha
    have e1 := auth_handler_logged cfg p { e with read_ali_secret_key := (true, other) }
      param w ha2 ho
    have e2 := auth_handler_logged cfg p e param w ha hs
    rw [hlog, e2] at e1
    simpa [chosen_auth_data, h1, h2, h3] using e1.symm
  · intro flash_secret
    simp [user_data_read_ali_secret_froward_key, log_since, call, print]

/-- In the sample product, a run with the sample secret sends in its confirmation the
bytes that its log shows. -/
theorem auth_secret_is_logged_witness :
    (calls_since boot_world
        (app_mesh_api_prov_auth_data_req_ind_handler sample_cfg sample_product
          (auth_env_with sample_secret) sample_auth_req boot_world).2).filter
        app_call.is_auth_cfm
      = [.ke_msg_send_prov_auth_data_cfm 1 16
          (logged_auth_data
            (log_since boot_world
              (app_mesh_api_prov_auth_data_req_ind_handler sample_cfg sample_product
                (auth_env_with sample_secret) sample_auth_req boot_world).2))] :=
  (auth_secret_is_logged sample_cfg sample_product (auth_env_with sample_secret)
    sample_auth_req boot_world rfl rfl).1

/-! ## Properties of the application manager -/

/-- The table of service-registration functions has `APPM_SVC_LIST_STOP` entries. -/
theorem appm_add_svc_func_list_length (p : product_cfg) :
    (appm_add_svc_func_list p).length = APPM_SVC_LIST_STOP p := by
  by_cases hg : p.GMA_SUPPORT = true <;>
    simp [appm_add_svc_func_list, APPM_SVC_LIST_STOP, hg]

/-- One call of `appm_add_svc` with `next_svc` inside the table or at its end. -/
theorem appm_add_svc_step (p : product_cfg) (w : appm_world)
    (h : w.app_env.next_svc ≤ APPM_SVC_LIST_STOP p) :
    appm_add_svc p w
      = if w.app_env.next_svc = APPM_SVC_LIST_STOP p then some (false, w)
        else some (true,
          { w with
            app_env := { w.app_env with next_svc := w.app_env.next_svc + 1 }
            trace := w.trace
              ++ ((appm_add_svc_func_list p).drop w.app_env.next_svc).take 1 }) := by
  rcases w with ⟨⟨conidx, k, dl, dn, irk⟩, st, ok, rp, tr⟩
  by_cases hg : p.GMA_SUPPORT = true
  · have hk : k ≤ 6 := by simpa [APPM_SVC_LIST_STOP, hg] using h
    interval_cases k <;>
      simp [appm_add_svc, appm_add_svc_func_list, APPM_SVC_LIST_STOP, hg, appm_do]
  · have hk : k ≤ 5 := by simpa [APPM_SVC_LIST_STOP, hg] using h
    interval_cases k <;>
      simp [appm_add_svc, appm_add_svc_func_list, APPM_SVC_LIST_STOP, hg, appm_do]

/-- Repeated calls of `appm_add_svc`, started with `next_svc` inside the table or at its
end: the calls return `true` until `next_svc` reaches `APPM_SVC_LIST_STOP` and `false`
from then on; the registration functions from `next_svc` on are called in table order. -/
theorem appm_add_svc_times_eq (p : product_cfg) :
    ∀ (n : Nat) (w : appm_world), w.app_env.next_svc ≤ APPM_SVC_LIST_STOP p →
      appm_add_svc_times p n w
        = some
            (List.replicate (min n (APPM_SVC_LIST_STOP p - w.app_env.next_svc)) true
              ++ List.replicate (n - (APPM_SVC_LIST_STOP p - w.app_env.next_svc)) false,
             { w with
               app_env :=
                { w.app_env with
                  next_svc := min (w.app_env.next_svc + n) (APPM_SVC_LIST_STOP p) }
               trace := w.trace
                ++ ((appm_add_svc_func_list p).drop w.app_env.next_svc).take n }) := by
  intro n
  induction n with
  | zero =>
    intro w h
    simp [appm_add_svc_times, Nat.min_eq_left h]
  | succ n ih =>
    intro w h
    rw [appm_add_svc_times, appm_add_svc_step p w h]
    by_cases hk : w.app_env.next_svc = APPM_SVC_LIST_STOP p
    · have hd : (appm_add_svc_func_list p).drop (APPM_SVC_LIST_STOP p) = [] :=
        List.drop_of_length_le (le_of_eq (appm_add_svc_func_list_length p))
      simp only [hk, if_true]
      rw [ih w h]
      simp [hk, hd, List.replicate_succ]
    · have hlt : w.app_env.next_svc < APPM_SVC_LIST_STOP p := lt_of_le_of_ne h hk
      simp only [hk, if_false]
      rw [ih _ (by simpa using hlt)]
      have e1 : min (n + 1) (APPM_SVC_LIST_STOP p - w.app_env.next_svc)
          = min n (APPM_SVC_LIST_STOP p - (w.app_env.next_svc + 1)) + 1 := by omega
      have e2 : n + 1 - (APPM_SVC_LIST_STOP p - w.app_env.next_svc)
          = n - (APPM_SVC_LIST_STOP p - (w.app_env.next_svc + 1)) := by omega
      have e3 : min (w.app_env.next_svc + (n + 1)) (APPM_SVC_LIST_STOP p)
          = min (w.app_env.next_svc + 1 + n) (APPM_SVC_LIST_STOP p) := by omega
      have e4 : ((appm_add_svc_func_list p).drop w.app_env.next_svc).take (n + 1)
          = ((appm_add_svc_func_list p).drop w.app_env.next_svc).take 1
            ++ ((appm_add_svc_func_list p).drop (w.app_env.next_svc + 1)).take n := by
        rw [Nat.add_comm n 1, List.take_add, List.drop_drop]
      simp [e1, e2, e3, e4, List.replicate_succ]

/-- What `appm_init` does when an identity-resolving key is stored: the environment is
zeroed and the stored key is loaded. -/
theorem appm_init_present (rand : Nat → Nat) (w : appm_world) (key : List Nat)
    (h : w.nvds_loc_irk = some key) :
    appm_init rand w
      = { w with
          app_env := { app_env_zero w.app_env with loc_irk := key }
          trace := w.trace ++ [.ke_task_create, .ke_state_set, .nvds_get, .app_dis_init,
            .app_batt_init, .app_oads_init, .app_mesh_init] } := by
  simp [appm_init, nvds_get_loc_irk, appm_do, h]

/-- What `appm_init` does when no identity-resolving key is stored and the storage accepts
the write: the environment is zeroed, a key is generated from sixteen random words and
stored. -/
theorem appm_init_absent (rand : Nat → Nat) (w : appm_world)
    (h : w.nvds_loc_irk = none) (hput : w.nvds_put_ok = true) :
    appm_init rand w
      = { w with
          app_env := { app_env_zero w.app_env with loc_irk := generated_irk rand w.rand_pos }
          nvds_loc_irk := some (generated_irk rand w.rand_pos)
          rand_pos := w.rand_pos + 16
          trace := w.trace ++ ([.ke_task_create, .ke_state_set, .nvds_get]
            ++ List.replicate 16 appm_call.co_rand_word
            ++ [.nvds_put (generated_irk rand w.rand_pos), .app_dis_init, .app_batt_init,
                .app_oads_init, .app_mesh_init]) } := by
  simp [appm_init, nvds_get_loc_irk, nvds_put_loc_irk, generate_irk, co_rand_word, appm_do,
    h, hput, KEY_LEN, app_env_zero, generated_irk, List.range, List.range.loop,
    List.replicate, Nat.add_assoc]

/-- After `appm_init`, `next_svc` is 0, whatever the storage holds or answers. -/
theorem appm_init_next_svc (rand : Nat → Nat) (w : appm_world) :
    (appm_init rand w).app_env.next_svc = 0 := by
  cases h : w.nvds_loc_irk with
  | some key => simp [appm_init_present rand w key h, app_env_zero]
  | none =>
    by_cases hput : w.nvds_put_ok = true
    · simp [appm_init_absent rand w h hput, app_env_zero]
    · simp [appm_init, nvds_get_loc_irk, nvds_put_loc_irk, appm_do, h, hput,
        generate_irk, co_rand_word, KEY_LEN, app_env_zero]

/-- C13: after `appm_init`, `n` calls of `appm_add_svc` in a row never index
`appm_add_svc_func_list` outside the table; the first `APPM_SVC_LIST_STOP` of them return
`true` and every later one returns `false`; the registration functions called are the
first `n` entries of the table (all of them once `n` reaches `APPM_SVC_LIST_STOP`), each
once and in table order; `next_svc` is the number of calls that returned `true`, so each
such call advances it by one and each later call leaves it unchanged; nothing else
changes. -/
theorem add_svc_after_init (p : product_cfg) (rand : Nat → Nat) (w : appm_world)
    (n : Nat) :
    appm_add_svc_times p n (appm_init rand w)
      = some
          (List.replicate (min n (APPM_SVC_LIST_STOP p)) true
            ++ List.replicate (n - APPM_SVC_LIST_STOP p) false,
           { appm_init rand w with
             app_env :=
              { (appm_init rand w).app_env with
                next_svc := min n (APPM_SVC_LIST_STOP p) }
             trace := (appm_init rand w).trace ++ (appm_add_svc_func_list p).take n }) := by
  have h0 := appm_init_next_svc rand w
  rw [appm_add_svc_times_eq p n (appm_init rand w) (by omega)]
  simp [h0]

/-- C14: `appm_init` zeroes the application environment (`next_svc = 0`) and then loads
the identity-resolving key: the stored key if there is one, otherwise a key generated from
sixteen random words, which it stores.  When the storage accepts the write, the stored key
equals `app_env.loc_irk` afterwards, and calling `appm_init` twice in a row yields the same
application environment and the same stored key as calling it once. -/
theorem appm_init_idempotent (rand : Nat → Nat) (w : appm_world)
    (hput : w.nvds_put_ok = true) :
    (appm_init rand w).app_env.next_svc = 0
    ∧ (appm_init rand w).app_env.conidx = 0
    ∧ (appm_init rand w).app_env.dev_name_len = 0
    ∧ (appm_init rand w).app_env.dev_name = List.replicate w.app_env.dev_name.length 0
    ∧ (∀ key, w.nvds_loc_irk = some key →
        (appm_init rand w).app_env.loc_irk = key
        ∧ (appm_init rand w).nvds_loc_irk = some key)
    ∧ (w.nvds_loc_irk = none →
        (appm_init rand w).app_env.loc_irk = generated_irk rand w.rand_pos)
    ∧ (appm_init rand w).nvds_loc_irk = some (appm_init rand w).app_env.loc_irk
    ∧ (appm_init rand (appm_init rand w)).app_env = (appm_init rand w).app_env
    ∧ (appm_init rand (appm_init rand w)).nvds_loc_irk = (appm_init rand w).nvds_loc_irk := by
  cases h : w.nvds_loc_irk with
  | some key =>
    have h1 : (appm_init rand w).nvds_loc_irk = some key := by
      simp [appm_init_present rand w key h, h]
    rw [appm_init_present rand (appm_init rand w) key h1, appm_init_present rand w key h]
    simp [app_env_zero, h]
  | none =>
    have h1 : (appm_init rand w).nvds_loc_irk = some (generated_irk rand w.rand_pos) := by
      simp [appm_init_absent rand w h hput]
    rw [appm_init_present rand (appm_init rand w) _ h1, appm_init_absent rand w h hput]
    simp [app_env_zero]

/-- From a state with leftovers in `app_env` and an empty storage, `appm_init` resets
`next_svc` and stores the key it generated; a second `appm_init` changes neither the
environment nor the stored key. -/
theorem appm_init_idempotent_witness :
    (appm_init sample_rand dirty_appm_world).app_env.next_svc = 0
    ∧ (appm_init sample_rand (appm_init sample_rand dirty_appm_world)).app_env
        = (appm_init sample_rand dirty_appm_world).app_env
    ∧ (appm_init sample_rand (appm_init sample_rand dirty_appm_world)).nvds_loc_irk
        = (appm_init sample_rand dirty_appm_world).nvds_loc_irk :=
  have h := appm_init_idempotent sample_rand dirty_appm_world rfl
  ⟨h.1, h.2.2.2.2.2.2.2⟩

/-! ## Properties of the model-side binding -/

/-- The model-side binds among the calls of `n` iterations from index `i` on are one bind
per index whose key-bind attempt returned `MESH_ERR_NO_ERROR`, in increasing order. -/
theorem bind_calls_mio_binds (d : mesh_defs) (sv : stack_view) (app_key_lid : Nat) :
    ∀ (n i : Nat), (bind_calls d sv app_key_lid n i).filter app_call.is_mio_bind
      = ((List.range' i n).filter
          (fun j => decide (sv.key_model_bind app_key_lid j = d.MESH_ERR_NO_ERROR))).map
          (fun j => app_call.m_tb_mio_bind j) := by
  intro n
  induction n with
  | zero => intro i; simp [bind_calls]
  | succ n ih =>
    intro i
    by_cases hb : sv.key_model_bind app_key_lid i = d.MESH_ERR_NO_ERROR <;>
      simp [bind_calls, bind_calls_at, hb, ih, List.range'_succ, app_call.is_mio_bind,
        List.filter_cons]

/-- C22: in `user_models_bind_app_key`, when the application-key lookup succeeds,
`m_tb_mio_bind(i)` is called for exactly those model local indexes `i` whose key-bind
attempt `m_tb_key_model_bind(app_key_lid, i)` was made and returned `MESH_ERR_NO_ERROR`,
once each and in increasing order; the model local indexes 0 and 1 are never bound, by
either kind of bind; and when the lookup fails, the lookup is the only call, so no bind of
either kind is attempted. -/
theorem mio_bind_follows_key_bind (d : mesh_defs) (sv : stack_view) (w : app_world) :
    (sv.app_key_find.1 = d.MESH_ERR_NO_ERROR →
      (calls_since w (user_models_bind_app_key d sv w)).filter app_call.is_mio_bind
          = ((List.range' 2 (sv.nb_model - 2)).filter
              (fun i => decide
                (sv.key_model_bind sv.app_key_find.2 i = d.MESH_ERR_NO_ERROR))).map
              (fun i => app_call.m_tb_mio_bind i)
      ∧ ∀ i : Nat,
          (app_call.m_tb_mio_bind i ∈ calls_since w (user_models_bind_app_key d sv w)
            ↔ (app_call.m_tb_key_model_bind sv.app_key_find.2 i
                  ∈ calls_since w (user_models_bind_app_key d sv w)
                ∧ sv.key_model_bind sv.app_key_find.2 i = d.MESH_ERR_NO_ERROR)))
    ∧ (∀ app_key_lid : Nat,
        app_call.m_tb_mio_bind 0 ∉ calls_since w (user_models_bind_app_key d sv w)
        ∧ app_call.m_tb_mio_bind 1 ∉ calls_since w (user_models_bind_app_key d sv w)
        ∧ app_call.m_tb_key_model_bind app_key_lid 0
            ∉ calls_since w (user_models_bind_app_key d sv w)
        ∧ app_call.m_tb_key_model_bind app_key_lid 1
            ∉ calls_since w (user_models_bind_app_key d sv w))
    ∧ (sv.app_key_find.1 ≠ d.MESH_ERR_NO_ERROR →
        calls_since w (user_models_bind_app_key d sv w) = [.m_tb_key_app_find]) := by
  have hmio : ∀ i : Nat,
      (app_call.m_tb_mio_bind i ∈ calls_since w (user_models_bind_app_key d sv w)
        ↔ sv.app_key_find.1 = d.MESH_ERR_NO_ERROR ∧ i ∈ List.range' 2 (sv.nb_model - 2)
          ∧ sv.key_model_bind sv.app_key_find.2 i = d.MESH_ERR_NO_ERROR) := by
    intro i
    have hm : app_call.m_tb_mio_bind i ∈ calls_since w (user_models_bind_app_key d sv w)
        ↔ app_call.m_tb_mio_bind i
          ∈ (calls_since w (user_models_bind_app_key d sv w)).filter
              app_call.is_mio_bind := by
      simp [List.mem_filter, app_call.is_mio_bind]
    rw [hm, user_models_bind_app_key_eq]
    by_cases hfind : sv.app_key_find.1 = d.MESH_ERR_NO_ERROR
    · simp [calls_since, app_key_bind_calls, hfind, app_call.is_mio_bind,
        bind_calls_mio_binds]
    · simp [calls_since, app_key_bind_calls, hfind, app_call.is_mio_bind]
  have hkmb : ∀ lid i : Nat,
      (app_call.m_tb_key_model_bind lid i
          ∈ calls_since w (user_models_bind_app_key d sv w)
        ↔ sv.app_key_find.1 = d.MESH_ERR_NO_ERROR ∧ lid = sv.app_key_find.2
          ∧ i ∈ List.range' 2 (sv.nb_model - 2)) := by
    intro lid i
    have hm : app_call.m_tb_key_model_bind lid i
          ∈ calls_since w (user_models_bind_app_key d sv w)
        ↔ app_call.m_tb_key_model_bind lid i
          ∈ (calls_since w (user_models_bind_app_key d sv w)).filter
              app_call.is_key_model_bind := by
      simp [List.mem_filter, app_call.is_key_model_bind]
    rw [hm, user_models_bind_app_key_eq]
    by_cases hfind : sv.app_key_find.1 = d.MESH_ERR_NO_ERROR
    · simp [calls_since, app_key_bind_calls, hfind, app_call.is_key_model_bind,
        bind_calls_attempts]
      tauto
    · simp [calls_since, app_key_bind_calls, hfind, app_call.is_key_model_bind]
  refine ⟨?_, ?_, ?_⟩
  · intro hfind
    refine ⟨?_, ?_⟩
    · rw [user_models_bind_app_key_eq]
      simp [calls_since, app_key_bind_calls, hfind, app_call.is_mio_bind,
        bind_calls_mio_binds]
    · intro i
      rw [hmio i, hkmb sv.app_key_find.2 i]
      tauto
  · intro lid
    refine ⟨?_, ?_, ?_, ?_⟩
    · rw [hmio 0]; simp [List.mem_range'_1]
    · rw [hmio 1]; simp [List.mem_range'_1]
    · rw [hkmb lid 0]; simp [List.mem_range'_1]
    · rw [hkmb lid 1]; simp [List.mem_range'_1]
  · intro hfind
    rw [user_models_bind_app_key_eq]
    simp [calls_since, app_key_bind_calls, hfind]

/-- With six registered models and a key binding that fails for the model local index 3,
the models 2, 4 and 5 are bound and the model 3 is not. -/
theorem mio_bind_follows_key_bind_witness :
    (calls_since boot_world
        (user_models_bind_app_key sample_defs sample_stack boot_world)).filter
        app_call.is_mio_bind
      = [.m_tb_mio_bind 2, .m_tb_mio_bind 4, .m_tb_mio_bind 5] :=
  ((mio_bind_follows_key_bind sample_defs sample_stack boot_world).1 rfl).1

/-! ## Properties of the model-application binding -/

/-- The loop over the first four entries of `config_model_id` increments the 16-bit
`config_num` once, with wrap-around, if the model id is one of them, and leaves it as it
is otherwise. -/
theorem count_config_model_eq (model_id config_num : Nat) :
    count_config_model model_id 4 0 config_num
      = if model_id = 0x1000 ∨ model_id = 0x1300 ∨ model_id = 0x1303 ∨ model_id = 0x1307
        then (config_num + 1) % 65536 else config_num := by
  by_cases h1 : model_id = 0x1000
  · simp [count_config_model, config_model_id, h1]
  · by_cases h2 : model_id = 0x1300
    · simp [count_config_model, config_model_id, h2]
    · by_cases h3 : model_id = 0x1303
      · simp [count_config_model, config_model_id, h3]
      · by_cases h4 : model_id = 0x1307
        · simp [count_config_model, config_model_id, h4]
        · simp [count_config_model, config_model_id, h1, h2, h3, h4]

/-- An indication for one of the four models that brings `config_num` to 1 runs the
bind-completion actions and leaves `config_num` at 5. -/
theorem app_bind_step_trigger (param : m_api_model_app_bind_ind) (w : app_world)
    (hm : param.model_id = 0x1000 ∨ param.model_id = 0x1300 ∨ param.model_id = 0x1303
      ∨ param.model_id = 0x1307)
    (hc : (w.config_num + 1) % 65536 = 1) :
    (app_mesh_msg_model_app_bind_handler param w).2.config_num = 5
    ∧ (app_mesh_msg_model_app_bind_handler param w).2.trace
        = w.trace ++ [.light_prov_complete, .m_tb_store_config 10,
            .m_tb_state_set_relay_state 1 1, .mesh_tb_timer_clear] := by
  simp [app_mesh_msg_model_app_bind_handler, count_config_model_eq, hm, hc, call, print,
    app_unprov_adv_timeout_set, mesh_tb_timer_clear]

/-- An indication for one of the four models that brings `config_num` to a value other
than 1 only increments `config_num`, with wrap-around, and makes no call. -/
theorem app_bind_step_quiet (param : m_api_model_app_bind_ind) (w : app_world)
    (hm : param.model_id = 0x1000 ∨ param.model_id = 0x1300 ∨ param.model_id = 0x1303
      ∨ param.model_id = 0x1307)
    (hc : (w.config_num + 1) % 65536 ≠ 1) :
    (app_mesh_msg_model_app_bind_handler param w).2.config_num
        = (w.config_num + 1) % 65536
    ∧ (app_mesh_msg_model_app_bind_handler param w).2.trace = w.trace := by
  simp [app_mesh_msg_model_app_bind_handler, count_config_model_eq, hm, hc, print]

/-- While the 16-bit `config_num` does not wrap, indications for one of the four models
only count up and make no call. -/
theorem app_bind_run_quiet (param : m_api_model_app_bind_ind)
    (hm : param.model_id = 0x1000 ∨ param.model_id = 0x1300 ∨ param.model_id = 0x1303
      ∨ param.model_id = 0x1307) :
    ∀ (k : Nat) (w : app_world), 1 ≤ w.config_num → w.config_num + k ≤ 65535 →
      (app_bind_run (List.replicate k param) w).config_num = w.config_num + k
      ∧ (app_bind_run (List.replicate k param) w).trace = w.trace := by
  intro k
  induction k with
  | zero => intro w _ _; simp [app_bind_run]
  | succ k ih =>
    intro w h1 h2
    have hc : (w.config_num + 1) % 65536 = w.config_num + 1 :=
      Nat.mod_eq_of_lt (by omega)
    have hs := app_bind_step_quiet param w hm (by omega)
    have hr := ih (app_mesh_msg_model_app_bind_handler param w).2
      (by rw [hs.1, hc]; omega) (by rw [hs.1, hc]; omega)
    have hu : app_bind_run (List.replicate (k + 1) param) w
        = app_bind_run (List.replicate k param)
            (app_mesh_msg_model_app_bind_handler param w).2 := by
      simp [app_bind_run, List.replicate_succ]
    rw [hu, hr.1, hr.2, hs.1, hs.2, hc]
    exact ⟨by omega, rfl⟩

/-- Handling two sequences of indications one after the other. -/
theorem app_bind_run_append (a b : List m_api_model_app_bind_ind) (w : app_world) :
    app_bind_run (a ++ b) w = app_bind_run b (app_bind_run a w) := by
  simp [app_bind_run, List.foldl_append]

/-- Handling one indication. -/
theorem app_bind_run_single (param : m_api_model_app_bind_ind) (w : app_world) :
    app_bind_run [param] w = (app_mesh_msg_model_app_bind_handler param w).2 := by
  simp [app_bind_run]

/-- From `config_num = 0`, a run of indications for one of the four models: the first one
runs the bind-completion actions; the next `65530` and one more make no call, the last of
them wrapping the 16-bit `config_num` to 0; the one after that runs the bind-completion
actions a second time. -/
theorem app_bind_run_wraps (param : m_api_model_app_bind_ind)
    (hm : param.model_id = 0x1000 ∨ param.model_id = 0x1300 ∨ param.model_id = 0x1303
      ∨ param.model_id = 0x1307)
    (k : Nat) (hk : k = 65530) (w : app_world) (h0 : w.config_num = 0) :
    (app_bind_run ([param] ++ (List.replicate k param ++ [param])) w).trace
        = w.trace ++ [.light_prov_complete, .m_tb_store_config 10,
            .m_tb_state_set_relay_state 1 1, .mesh_tb_timer_clear]
    ∧ (app_bind_run ([param] ++ (List.replicate k param ++ [param])) w).config_num = 0
    ∧ (app_bind_run ([param] ++ (List.replicate k param ++ ([param] ++ [param]))) w).trace
        = w.trace ++ ([.light_prov_complete, .m_tb_store_config 10,
              .m_tb_state_set_relay_state 1 1, .mesh_tb_timer_clear]
            ++ [.light_prov_complete, .m_tb_store_config 10,
              .m_tb_state_set_relay_state 1 1, .mesh_tb_timer_clear]) := by
  have s1 := app_bind_step_trigger param w hm (by rw [h0])
  have s2 := app_bind_run_quiet param hm k (app_mesh_msg_model_app_bind_handler param w).2
    (by rw [s1.1]; omega) (by rw [s1.1]; omega)
  have s3 := app_bind_step_quiet param
    (app_bind_run (List.replicate k param) (app_mesh_msg_model_app_bind_handler param w).2)
    hm (by rw [s2.1, s1.1, hk]; decide)
  have e3 : (app_mesh_msg_model_app_bind_handler param
      (app_bind_run (List.replicate k param)
        (app_mesh_msg_model_app_bind_handler param w).2)).2.config_num = 0 := by
    rw [s3.1, s2.1, s1.1, hk]
  have s4 := app_bind_step_trigger param
    (app_mesh_msg_model_app_bind_handler param
      (app_bind_run (List.replicate k param)
        (app_mesh_msg_model_app_bind_handler param w).2)).2
    hm (by rw [e3])
  refine ⟨?_, ?_, ?_⟩
  · rw [app_bind_run_append, app_bind_run_append, app_bind_run_single,
      app_bind_run_single, s3.2, s2.2, s1.2]
  · rw [app_bind_run_append, app_bind_run_append, app_bind_run_single,
      app_bind_run_single, e3]
  · rw [app_bind_run_append, app_bind_run_append, app_bind_run_append,
      app_bind_run_single, app_bind_run_single, app_bind_run_single, s4.2, s3.2, s2.2,
      s1.2, List.append_assoc]

/-- C21 fails on the code: from the boot state, where `config_num` is 0, after 65533
model-app-bind indications for the model `0x1000`, the bind-completion actions have run
twice, on the first and on the last indication, and not once, because the 16-bit
`config_num` has wrapped from 65535 to 0 and then returned to 1. -/
theorem bind_completion_runs_twice :
    completions_since boot_world
        (app_bind_run (List.replicate 65533 onoff_bind_ind) boot_world) = 2
    ∧ completions_since boot_world
        (app_bind_run (List.replicate 65532 onoff_bind_ind) boot_world) = 1
    ∧ (app_bind_run (List.replicate 65532 onoff_bind_ind) boot_world).config_num = 0 := by
  have h := app_bind_run_wraps onoff_bind_ind (Or.inl rfl) 65530 rfl boot_world rfl
  have e1 : List.replicate 65533 onoff_bind_ind
      = [onoff_bind_ind] ++ (List.replicate 65530 onoff_bind_ind
          ++ ([onoff_bind_ind] ++ [onoff_bind_ind])) := by
    have hn : (65533 : Nat) = 1 + (65530 + (1 + 1)) := by norm_num
    rw [hn, List.replicate_add, List.replicate_add, List.replicate_add]
    rfl
  have e2 : List.replicate 65532 onoff_bind_ind
      = [onoff_bind_ind] ++ (List.replicate 65530 onoff_bind_ind ++ [onoff_bind_ind]) := by
    have hn : (65532 : Nat) = 1 + (65530 + 1) := by norm_num
    rw [hn, List.replicate_add, List.replicate_add]
    rfl
  refine ⟨?_, ?_, ?_⟩
  · rw [e1, completions_since, calls_since, h.2.2]
    decide
  · rw [e2, completions_since, calls_since, h.1]
    decide
  · rw [e2, h.2.1]

end BleMesh
